import Mathlib

/-!
Verification development for the Medusa webhook-handler backend.

This file gives a shallow embedding in Lean 4 of the two subsystems that
the specification covers:

* the idempotent webhook event-intake layer
  (`app/services/idempotency_service.py`), together with a small-step
  interleaving model of concurrent admissions against the event store;
* the NetValve payment-gateway orchestration
  (`app/services/netvalve_service.py`): POST /sale processing and its
  approved/declined classification, the three-path authorization
  orchestrator, capture, the webhook event classifier and the 5-step
  HPF session waterfall;
* the Slack alerting collaborator (`app/services/slack_service.py`).

Python dictionaries are embedded as association lists of `JVal` values
with Python's "later binding wins" lookup semantics; Python truthiness,
substring tests and `or`-chains are modelled explicitly.  External HTTP
calls are oracles passed in as parameters, so each network-touching
function is a pure function of its inputs and of the oracle.
-/

set_option maxRecDepth 10000

namespace MedusaWebhook

/-! ## Python value model -/

/-- A JSON-ish Python value: the payloads, session-data mappings and
gateway responses threaded through the services. -/
inductive JVal where
  | s (v : String)
  | num (v : Rat)
  | b (v : Bool)
  | null
  | obj (fields : List (String × JVal))
  | arr (elems : List JVal)

/-- A Python dict is an association list; later bindings shadow earlier
ones (`jget` below returns the last binding). -/
abbrev JDict := List (String × JVal)

/-- `d.get(k)`: last binding for `k`, `none` when the key is absent.
Later pairs win, so `{**a, "k": v}` is simply `a ++ [("k", v)]`. -/
def jget (l : JDict) (k : String) : Option JVal :=
  l.foldl (fun acc kv => if kv.1 == k then some kv.2 else acc) none

/-- `d.get(k, default)`. -/
def jgetD (l : JDict) (k : String) (d : JVal) : JVal :=
  (jget l k).getD d

/-- `d.get(k)` where an absent key is Python `None` (JSON null). -/
def jgetN (l : JDict) (k : String) : JVal :=
  (jget l k).getD .null

/-- Python truthiness of a value. -/
def truthyJ : JVal → Bool
  | .s v => v != ""
  | .num q => q != 0
  | .b bv => bv
  | .null => false
  | .obj l => !l.isEmpty
  | .arr l => !l.isEmpty

/-- Python truthiness of `d.get(k)` (absent key is falsy `None`). -/
def truthyO : Option JVal → Bool
  | none => false
  | some v => truthyJ v

/-- `x is not None` for a `d.get(k)` result: absent keys and JSON null
are both Python `None`. -/
def isNotNone : Option JVal → Bool
  | none => false
  | some .null => false
  | some _ => true

/-- Python `a or b` over optional values: `a` when truthy, else `b`. -/
def pyOr (a b : Option JVal) : Option JVal :=
  match a with
  | some v => if truthyJ v then some v else b
  | none => b

/-- Structural equality of values, as Python `==` on JSON scalars and
containers.  (Python's cross-type numeric equalities such as
`True == 1` are not modelled; the services only compare strings.) -/
def jvalBEq : JVal → JVal → Bool
  | .s a, .s c => a == c
  | .num a, .num c => a == c
  | .b a, .b c => a == c
  | .null, .null => true
  | .obj a, .obj c => jobjBEq a c
  | .arr a, .arr c => jarrBEq a c
  | _, _ => false
where
  jobjBEq : List (String × JVal) → List (String × JVal) → Bool
    | [], [] => true
    | (k₁, v₁) :: t₁, (k₂, v₂) :: t₂ => k₁ == k₂ && jvalBEq v₁ v₂ && jobjBEq t₁ t₂
    | _, _ => false
  jarrBEq : List JVal → List JVal → Bool
    | [], [] => true
    | v₁ :: t₁, v₂ :: t₂ => jvalBEq v₁ v₂ && jarrBEq t₁ t₂
    | _, _ => false

/-! ## String helpers

Character-list based versions of the string operations, so that every
definition evaluates by kernel reduction on concrete inputs. -/

/-- Python `str.lower()` (ASCII). -/
def lowerStr (s : String) : String := String.mk (s.data.map Char.toLower)

/-- Python `str.upper()` (ASCII). -/
def upperStr (s : String) : String := String.mk (s.data.map Char.toUpper)

/-- Python `str.strip()` with no argument: whitespace from both ends. -/
def trimStr (s : String) : String :=
  String.mk (((s.data.dropWhile Char.isWhitespace).reverse.dropWhile
    Char.isWhitespace).reverse)

/-- Python `s[:n]`. -/
def takeStr (s : String) (n : Nat) : String := String.mk (s.data.take n)

/-- Python `str.startswith`. -/
def startsWithStr (s p : String) : Bool := p.data.isPrefixOf s.data

/-- Python `pat in hay` (substring containment). -/
def strContains (hay pat : String) : Bool :=
  (List.range (hay.data.length + 1)).any fun i => pat.data.isPrefixOf (hay.data.drop i)

/-- Python `str(v)` restricted to the scalar values the services feed it.
Containers get a canonical placeholder (never exercised by the code paths
modelled here); integral rationals print like Python ints. -/
def pyStr : JVal → String
  | .s v => v
  | .num q => if q.den == 1 then toString q.num else toString q
  | .b true => "True"
  | .b false => "False"
  | .null => "None"
  | .obj _ => "object"
  | .arr _ => "list"

/-- Python `str.zfill` for the unsigned strings the code feeds it. -/
def zfill (s : String) (n : Nat) : String :=
  if s.length ≥ n then s else String.mk (List.replicate (n - s.length) '0') ++ s

def digitsToNat (l : List Char) : Option Nat :=
  if l.isEmpty then none
  else
    l.foldl (fun acc c =>
      match acc with
      | none => none
      | some n => if c.isDigit then some (n * 10 + (c.toNat - 48)) else none)
      (some 0)

/-- Python `int(s)` (sign plus digits, surrounding whitespace stripped);
`none` models the `ValueError` path.  Underscored literals are not
modelled. -/
def pyToInt (s : String) : Option Int :=
  match (trimStr s).data with
  | '-' :: ds => (digitsToNat ds).map fun n => -(n : Int)
  | '+' :: ds => (digitsToNat ds).map fun n => (n : Int)
  | ds => (digitsToNat ds).map fun n => (n : Int)

/-- Python `str.title()`: first letter of each alphabetic run uppercased,
the rest lowercased. -/
def pyTitle (s : String) : String :=
  String.mk (go false s.data)
where
  go : Bool → List Char → List Char
    | _, [] => []
    | prev, c :: t =>
      if c.isAlpha then (if prev then c.toLower else c.toUpper) :: go true t
      else c :: go false t

/-- `round(x, 2)` idealized over exact rationals as round-half-up of the
scaled value (the source rounds an IEEE float; amounts are modelled as
exact numbers): `⌊100·q + 1/2⌋ / 100` computed on numerator and
denominator. -/
def roundTo2 (q : Rat) : Rat :=
  Rat.divInt ((2 * (100 * q.num) + q.den).ediv (2 * q.den)) 100

/-! ## Dict lookup lemmas -/

theorem jget_nil (k : String) : jget [] k = none := rfl

theorem jget_foldl (l : JDict) (k : String) (acc : Option JVal) :
    l.foldl (fun a kv => if kv.1 == k then some kv.2 else a) acc
      = match jget l k with
        | some v => some v
        | none => acc := by
  induction l generalizing acc with
  | nil => rfl
  | cons kv t ih =>
    show List.foldl _ (if kv.1 == k then some kv.2 else acc) t = _
    have hc : jget (kv :: t) k
        = List.foldl (fun a kv => if kv.1 == k then some kv.2 else a)
            (if kv.1 == k then some kv.2 else none) t := rfl
    rw [ih, hc, ih]
    cases hjt : jget t k with
    | some v => rfl
    | none => by_cases h : kv.1 == k <;> simp [h]

theorem jget_append (l₁ l₂ : JDict) (k : String) :
    jget (l₁ ++ l₂) k = match jget l₂ k with
      | some v => some v
      | none => jget l₁ k := by
  show List.foldl _ none (l₁ ++ l₂) = _
  rw [List.foldl_append]
  have h₁ : List.foldl (fun a kv => if kv.1 == k then some kv.2 else a) none l₁
      = jget l₁ k := rfl
  rw [h₁, jget_foldl]

/-- Appending a binding makes it the visible one. -/
theorem jget_append_self (l : JDict) (k : String) (v : JVal) :
    jget (l ++ [(k, v)]) k = some v := by
  rw [jget_append]
  simp [jget]

/-- Appending a binding for a different key is invisible. -/
theorem jget_append_ne (l : JDict) (k k' : String) (v : JVal) (h : (k == k') = false) :
    jget (l ++ [(k, v)]) k' = jget l k' := by
  rw [jget_append]
  have hne : k ≠ k' := by simpa using h
  simp [jget, hne]

/-- A dict with no binding for `k` yields `none`. -/
theorem jget_eq_none_of_keys_ne (l : JDict) (k : String)
    (h : ∀ kv ∈ l, kv.1 ≠ k) : jget l k = none := by
  induction l with
  | nil => rfl
  | cons kv t ih =>
    have hc : jget (kv :: t) k
        = List.foldl (fun a kv => if kv.1 == k then some kv.2 else a)
            (if kv.1 == k then some kv.2 else none) t := rfl
    rw [hc, jget_foldl]
    have hk : (kv.1 == k) = false := by
      have := h kv (List.mem_cons_self kv t)
      simpa using this
    rw [ih fun kv h' => h kv (List.mem_cons_of_mem _ h')]
    simp [hk]

/-- Appending bindings none of which touches `k` leaves `k` unchanged. -/
theorem jget_append_of_keys_ne (l us : JDict) (k : String)
    (h : ∀ kv ∈ us, kv.1 ≠ k) : jget (l ++ us) k = jget l k := by
  rw [jget_append, jget_eq_none_of_keys_ne us k h]

/-! ## Idempotency coordinator (`app/services/idempotency_service.py`)

The service itself is under `src/`; the event store it drives (the
`UnitOfWork` / `webhook_events` repository and the SQLAlchemy
`WebhookEvent` model) is not, so the store is modelled from the spec
(section 3: unique constraint on `event_id`; rows never deleted). -/

/-- The inbound `WebhookEventCreate` payload (schema fields used by the
intake path; the opaque payload blob is an uninterpreted string). -/
structure WebhookEventCreate where
  event_id : String
  psp : String
  event_type : String
  medusa_order_id : Option String
  payload : String
deriving DecidableEq, Repr

/-- Modelled from the spec: an Event row of the store (§3 data model).
`id` is the surrogate key, `event_id` the provider-scoped natural key
under a unique constraint. -/
structure EventRow where
  id : Nat
  event_id : String
  psp : String
  event_type : String
  medusa_order_id : Option String
  payload : String
  processed : Bool
  error_message : Option String
deriving DecidableEq, Repr

/-- The event store: the rows of the webhook-events table. -/
abbrev Store := List EventRow

def isEventRowFor (e : String) (r : EventRow) : Bool :=
  r.event_id == e

/-- Modelled from the spec: repository `get_by_event_id` — lookup of the
row with the given natural key. -/
def get_by_event_id (s : Store) (eid : String) : Option EventRow :=
  s.find? (isEventRowFor eid)

/-- Modelled from the spec: repository `update_by_id(id, error_message=…)`
— mutate the `error_message` column of the row with surrogate key `rid`
and commit. -/
def update_error_by_id (s : Store) (rid : Nat) (err : Option String) : Store :=
  s.map fun r => if r.id == rid then { r with error_message := err } else r

/-- The row a successful create inserts: the payload's fields, not yet
processed, no error. -/
def newRowOf (d : WebhookEventCreate) (rid : Nat) : EventRow :=
  { id := rid, event_id := d.event_id, psp := d.psp,
    event_type := d.event_type, medusa_order_id := d.medusa_order_id,
    payload := d.payload, processed := false, error_message := none }

/-- Modelled from the spec: repository `create(**data)` plus commit.  The
unique constraint on `event_id` (§3) makes the insert fail with an
`IntegrityError` — and the transaction roll back, leaving the store
unchanged — whenever a row with the same `event_id` already exists. -/
def create (s : Store) (d : WebhookEventCreate) (rid : Nat) :
    Except Unit (EventRow × Store) :=
  if s.any (isEventRowFor d.event_id) then
    .error ()
  else
    .ok (newRowOf d rid, s ++ [newRowOf d rid])

/-- The part of `check_and_create_webhook_event` after its first await
(the `get_by_event_id` read): given the row the read returned, act on the
*current* store.  Mirrors `idempotency_service.py` lines 49-89:

* row processed with no error → skip (`None`);
* row with an error message → clear the error, persist, return the row
  (the repository update mutates the fetched row, so the returned
  response carries `error_message = None`);
* row in flight (not processed, no error) → skip;
* no row → create; an `IntegrityError` from a concurrent duplicate is
  rolled back and converted to skip, a successful create is returned. -/
def admitResume (existing : Option EventRow) (s : Store)
    (d : WebhookEventCreate) (rid : Nat) : Option EventRow × Store :=
  match existing with
  | some row =>
    if row.processed && row.error_message.isNone then
      (none, s)
    else if row.error_message.isSome then
      (some { row with error_message := none }, update_error_by_id s row.id none)
    else
      (none, s)
  | none =>
    match create s d rid with
    | .ok (row, s') => (some row, s')
    | .error _ => (none, s)

/-- `IdempotencyService.check_and_create_webhook_event`
(`idempotency_service.py` lines 43-89) run without interleaving: the
read immediately followed by the action. -/
def check_and_create_webhook_event (s : Store) (d : WebhookEventCreate)
    (rid : Nat) : Option EventRow × Store :=
  admitResume (get_by_event_id s d.event_id) s d rid

/-! ### Interleaving model of concurrent admissions

`check_and_create_webhook_event` suspends at its awaits; the decisive
boundary is between the `get_by_event_id` read and the subsequent
state-dependent action (update/create/commit).  Each concurrent
admission of the same event is a two-step process: a read step and an
action step, scheduled in any order. -/

/-- The progress of one admission of the event. -/
inductive AdmitPhase where
  | ready
  | readDone (existing : Option EventRow)
  | settled (outcome : Option EventRow)
deriving DecidableEq, Repr

/-- Global state: the store plus each admission's progress.  Process `i`
uses `i` as the surrogate key of the row it would create. -/
structure AdmitConfig where
  store : Store
  procs : List AdmitPhase
deriving DecidableEq, Repr

/-- One scheduler step: advance process `i` by one phase. -/
def stepProc (d : WebhookEventCreate) (c : AdmitConfig) (i : Nat) : AdmitConfig :=
  match c.procs[i]? with
  | none => c
  | some .ready =>
    { c with procs := c.procs.set i (.readDone (get_by_event_id c.store d.event_id)) }
  | some (.readDone existing) =>
    let os := admitResume existing c.store d i
    { store := os.2, procs := c.procs.set i (.settled os.1) }
  | some (.settled _) => c

/-- Run a schedule (a list of process indices). -/
def runAdmits (d : WebhookEventCreate) (c : AdmitConfig) (sched : List Nat) :
    AdmitConfig :=
  sched.foldl (stepProc d) c

/-- N admissions of `d`, all ready, against initial store `s`. -/
def initConfig (s : Store) (n : Nat) : AdmitConfig :=
  { store := s, procs := List.replicate n .ready }

def phaseExec : AdmitPhase → Bool
  | .settled (some _) => true
  | _ => false

def phaseSkip : AdmitPhase → Bool
  | .settled none => true
  | _ => false

def phaseSettled : AdmitPhase → Bool
  | .settled _ => true
  | _ => false

/-- How many admissions got a non-`None` row back (`Execute`/`Retry`). -/
def execCount (c : AdmitConfig) : Nat :=
  c.procs.countP phaseExec

/-- How many admissions were told to skip (`None`). -/
def skipCount (c : AdmitConfig) : Nat :=
  c.procs.countP phaseSkip

/-- Rows of the store carrying the admitted event's natural key. -/
def eCount (e : String) (s : Store) : Nat :=
  s.countP (isEventRowFor e)

/-! ### Invariant of concurrent first-sight admissions -/

theorem mem_of_idx {α : Type} {l : List α} {i : Nat} {a : α}
    (h : l[i]? = some a) : a ∈ l :=
  List.get?_mem (by simpa [List.get?_eq_getElem?] using h)

theorem countP_set_of_idx {α : Type} (p : α → Bool) :
    ∀ (l : List α) (i : Nat) (a b : α), l[i]? = some a →
      (l.set i b).countP p + (if p a then 1 else 0)
        = l.countP p + (if p b then 1 else 0) := by
  intro l
  induction l with
  | nil => intro i a b h; rw [List.getElem?_nil] at h; cases h
  | cons x t ih =>
    intro i a b h
    cases i with
    | zero =>
      have hx : x = a := by
        rw [List.getElem?_cons_zero] at h
        injection h
      subst hx
      simp only [List.set, List.countP_cons]
      omega
    | succ n =>
      have h' : t[n]? = some a := by
        rw [List.getElem?_cons_succ] at h
        exact h
      have := ih n a b h'
      simp only [List.set, List.countP_cons]
      omega

/-- Invariant maintained by every interleaving of first-sight admissions
of the same event: at most one row for the event ever exists, it is
fresh (unprocessed, error-free), the number of non-`None` outcomes
handed out equals the number of such rows, every completed read saw
either no row or the fresh row, and no admission settles while no row
exists. -/
structure AdmitInv (d : WebhookEventCreate) (c : AdmitConfig) : Prop where
  rows_fresh : ∀ r ∈ c.store, r.event_id = d.event_id →
    r.processed = false ∧ r.error_message = none
  count_le : eCount d.event_id c.store ≤ 1
  exec_eq : execCount c = eCount d.event_id c.store
  locals_ok : ∀ p ∈ c.procs, ∀ r, p = .readDone (some r) →
    r ∈ c.store ∧ r.event_id = d.event_id ∧ r.processed = false ∧
      r.error_message = none
  no_settled_of_zero : eCount d.event_id c.store = 0 →
    ∀ p ∈ c.procs, phaseSettled p = false

theorem admitInv_init (d : WebhookEventCreate) (s : Store) (n : Nat)
    (h0 : ∀ r ∈ s, r.event_id ≠ d.event_id) :
    AdmitInv d (initConfig s n) := by
  have hc : eCount d.event_id s = 0 := by
    apply List.countP_eq_zero.mpr
    intro r hr
    simp [isEventRowFor, h0 r hr]
  have hx : execCount (initConfig s n) = 0 := by
    apply List.countP_eq_zero.mpr
    intro p hp
    have := List.eq_of_mem_replicate hp
    simp [this, phaseExec]
  refine ⟨?_, ?_, ?_, ?_, ?_⟩
  · intro r hr hre; exact absurd hre (h0 r hr)
  · show eCount d.event_id s ≤ 1
    omega
  · show execCount (initConfig s n) = eCount d.event_id s
    rw [hx, hc]
  · intro p hp r hpr
    have := List.eq_of_mem_replicate hp
    simp [this] at hpr
  · intro _ p hp
    have := List.eq_of_mem_replicate hp
    simp [this, phaseSettled]

theorem stepProc_ready (d : WebhookEventCreate) (c : AdmitConfig) (i : Nat)
    (h : c.procs[i]? = some .ready) :
    stepProc d c i =
      ⟨c.store, c.procs.set i (.readDone (get_by_event_id c.store d.event_id))⟩ := by
  simp [stepProc, h]

theorem stepProc_resume (d : WebhookEventCreate) (c : AdmitConfig) (i : Nat)
    (ex : Option EventRow) (h : c.procs[i]? = some (.readDone ex)) :
    stepProc d c i =
      ⟨(admitResume ex c.store d i).2,
        c.procs.set i (.settled (admitResume ex c.store d i).1)⟩ := by
  simp [stepProc, h]

theorem admitInv_step (d : WebhookEventCreate) (c : AdmitConfig) (i : Nat)
    (h : AdmitInv d c) : AdmitInv d (stepProc d c i) := by
  cases hget : c.procs[i]? with
  | none =>
    have : stepProc d c i = c := by simp [stepProc, hget]
    rw [this]; exact h
  | some ph =>
    cases ph with
    | settled o =>
      have : stepProc d c i = c := by simp [stepProc, hget]
      rw [this]; exact h
    | ready =>
      rw [stepProc_ready d c i hget]
      have hcnt := countP_set_of_idx phaseExec c.procs i _
        (.readDone (get_by_event_id c.store d.event_id)) hget
      refine ⟨h.rows_fresh, h.count_le, ?_, ?_, ?_⟩
      · have hx := h.exec_eq
        simp only [execCount, phaseExec] at hx hcnt ⊢
        omega
      · intro p hp r hpr
        rcases List.mem_or_eq_of_mem_set hp with hmem | hnew
        · exact h.locals_ok p hmem r hpr
        · subst hnew
          have hfind : get_by_event_id c.store d.event_id = some r := by
            injection hpr
          have hre : r.event_id = d.event_id := by
            have := List.find?_some hfind
            simpa [isEventRowFor] using this
          have hrm : r ∈ c.store := List.mem_of_find?_eq_some hfind
          exact ⟨hrm, hre, (h.rows_fresh r hrm hre).1, (h.rows_fresh r hrm hre).2⟩
      · intro h0 p hp
        rcases List.mem_or_eq_of_mem_set hp with hmem | hnew
        · exact h.no_settled_of_zero h0 p hmem
        · simp [hnew, phaseSettled]
    | readDone ex =>
      have hmemi : AdmitPhase.readDone ex ∈ c.procs := mem_of_idx hget
      rw [stepProc_resume d c i ex hget]
      cases ex with
      | some r =>
        obtain ⟨hrm, hre, hrp, hrerr⟩ := h.locals_ok _ hmemi r rfl
        have hres : admitResume (some r) c.store d i = (none, c.store) := by
          simp [admitResume, hrp, hrerr]
        rw [hres]
        have hcount : eCount d.event_id c.store ≠ 0 := by
          intro h0
          exact (List.countP_eq_zero.mp h0 r hrm) (by simp [isEventRowFor, hre])
        have hcnt := countP_set_of_idx phaseExec c.procs i _ (.settled none) hget
        refine ⟨h.rows_fresh, h.count_le, ?_, ?_, ?_⟩
        · have hx := h.exec_eq
          simp only [execCount, phaseExec] at hx hcnt ⊢
          omega
        · intro p hp r' hpr
          rcases List.mem_or_eq_of_mem_set hp with hmem | hnew
          · exact h.locals_ok p hmem r' hpr
          · simp [hnew] at hpr
        · intro h0
          exact absurd h0 hcount
      | none =>
        by_cases hany : c.store.any (isEventRowFor d.event_id)
        · have hres : admitResume none c.store d i = (none, c.store) := by
            simp [admitResume, create, hany]
          rw [hres]
          have hcount : eCount d.event_id c.store ≠ 0 := by
            intro h0
            obtain ⟨r, hrm, hrP⟩ := List.any_eq_true.mp hany
            exact (List.countP_eq_zero.mp h0 r hrm) hrP
          have hcnt := countP_set_of_idx phaseExec c.procs i _ (.settled none) hget
          refine ⟨h.rows_fresh, h.count_le, ?_, ?_, ?_⟩
          · have hx := h.exec_eq
            simp only [execCount, phaseExec] at hx hcnt ⊢
            omega
          · intro p hp r' hpr
            rcases List.mem_or_eq_of_mem_set hp with hmem | hnew
            · exact h.locals_ok p hmem r' hpr
            · simp [hnew] at hpr
          · intro h0
            exact absurd h0 hcount
        · have hany' : c.store.any (isEventRowFor d.event_id) = false := by
            simpa using hany
          have hzero : eCount d.event_id c.store = 0 := by
            apply List.countP_eq_zero.mpr
            intro r hr hP
            exact hany (List.any_eq_true.mpr ⟨r, hr, hP⟩)
          have hres : admitResume none c.store d i =
              (some (newRowOf d i), c.store ++ [newRowOf d i]) := by
            simp [admitResume, create, hany']
          rw [hres]
          have hnewP : isEventRowFor d.event_id (newRowOf d i) = true := by
            simp [isEventRowFor, newRowOf]
          have hcount' : eCount d.event_id (c.store ++ [newRowOf d i]) = 1 := by
            have hstepc : eCount d.event_id (c.store ++ [newRowOf d i])
                = eCount d.event_id c.store + 1 := by
              simp [eCount, List.countP_append, hnewP]
            rw [hstepc, hzero]
          have hcnt := countP_set_of_idx phaseExec c.procs i _
            (.settled (some (newRowOf d i))) hget
          refine ⟨?_, ?_, ?_, ?_, ?_⟩
          · intro r hr hre
            rcases List.mem_append.mp hr with hmem | hnew
            · exact h.rows_fresh r hmem hre
            · have : r = newRowOf d i := by simpa using hnew
              simp [this, newRowOf]
          · show eCount d.event_id (c.store ++ [newRowOf d i]) ≤ 1
            rw [hcount']
          · show (c.procs.set i (.settled (some (newRowOf d i)))).countP phaseExec
              = eCount d.event_id (c.store ++ [newRowOf d i])
            rw [hcount']
            have hx := h.exec_eq
            rw [hzero] at hx
            have hx' : List.countP phaseExec c.procs = 0 := hx
            have e1 : (if phaseExec (.readDone none) = true then 1 else 0) = 0 := rfl
            have e2 : (if phaseExec (.settled (some (newRowOf d i))) = true
                then 1 else 0) = 1 := rfl
            rw [e1, e2] at hcnt
            omega
          · intro p hp r' hpr
            rcases List.mem_or_eq_of_mem_set hp with hmem | hnew
            · obtain ⟨hrm, hr2, hr3, hr4⟩ := h.locals_ok p hmem r' hpr
              exact ⟨List.mem_append_left _ hrm, hr2, hr3, hr4⟩
            · simp [hnew] at hpr
          · intro h0
            rw [hcount'] at h0
            cases h0

theorem admitInv_run (d : WebhookEventCreate) (c : AdmitConfig)
    (sched : List Nat) (h : AdmitInv d c) :
    AdmitInv d (runAdmits d c sched) := by
  induction sched generalizing c with
  | nil => exact h
  | cons i t ih =>
    have hr : runAdmits d c (i :: t) = runAdmits d (stepProc d c i) t := rfl
    rw [hr]
    exact ih _ (admitInv_step d c i h)

theorem procs_length_step (d : WebhookEventCreate) (c : AdmitConfig) (i : Nat) :
    (stepProc d c i).procs.length = c.procs.length := by
  cases hget : c.procs[i]? with
  | none => simp [stepProc, hget]
  | some ph => cases ph <;> simp [stepProc, hget]

theorem procs_length_run (d : WebhookEventCreate) (c : AdmitConfig)
    (sched : List Nat) :
    (runAdmits d c sched).procs.length = c.procs.length := by
  induction sched generalizing c with
  | nil => rfl
  | cons i t ih =>
    have hr : runAdmits d c (i :: t) = runAdmits d (stepProc d c i) t := rfl
    rw [hr, ih, procs_length_step]

/-- Clearing the error of the found row is visible through a subsequent
lookup by the same event id. -/
theorem get_by_event_id_update (s : Store) (e : String) (r : EventRow)
    (err : Option String) (hfind : get_by_event_id s e = some r) :
    get_by_event_id (update_error_by_id s r.id err) e
      = some { r with error_message := err } := by
  induction s with
  | nil => cases hfind
  | cons a t ih =>
    by_cases ha : isEventRowFor e a = true
    · have hfa : List.find? (isEventRowFor e) (a :: t) = some a :=
        List.find?_cons_of_pos t ha
      have har : a = r := by
        have : get_by_event_id (a :: t) e = some a := hfa
        rw [this] at hfind
        injection hfind
      subst har
      have hupd : update_error_by_id (a :: t) a.id err
          = ({ a with error_message := err }) :: update_error_by_id t a.id err := by
        simp [update_error_by_id]
      rw [hupd]
      have hP : isEventRowFor e { a with error_message := err } = true := by
        simpa [isEventRowFor] using ha
      exact List.find?_cons_of_pos _ hP
    · have hfa : List.find? (isEventRowFor e) (a :: t)
          = List.find? (isEventRowFor e) t := List.find?_cons_of_neg t ha
      have hfind' : get_by_event_id t e = some r := by
        have h' : get_by_event_id (a :: t) e = List.find? (isEventRowFor e) t := hfa
        rw [h'] at hfind
        exact hfind
      have hupd : update_error_by_id (a :: t) r.id err
          = (if a.id == r.id then { a with error_message := err } else a)
              :: update_error_by_id t r.id err := by
        simp [update_error_by_id]
      have hPa : ¬ isEventRowFor e
          (if a.id == r.id then { a with error_message := err } else a) = true := by
        by_cases hid : (a.id == r.id) = true <;>
          simp [hid, isEventRowFor] <;> simpa [isEventRowFor] using ha
      show get_by_event_id (update_error_by_id (a :: t) r.id err) e = _
      rw [hupd]
      show List.find? (isEventRowFor e) (_ :: _) = _
      rw [List.find?_cons_of_neg _ hPa]
      exact ih hfind'

/-! ### Claim theorems for the idempotency coordinator -/

/-- Concrete admitted event used in witnesses and counterexamples. -/
def d_ev1 : WebhookEventCreate :=
  { event_id := "ev_1", psp := "solidgate", event_type := "order.settle_ok",
    medusa_order_id := some "cart_42", payload := "payload" }

/-- A pre-existing row for `ev_1` whose prior execution failed. -/
def erroredRow : EventRow :=
  { id := 7, event_id := "ev_1", psp := "solidgate",
    event_type := "order.settle_ok", medusa_order_id := some "cart_42",
    payload := "payload", processed := false,
    error_message := some "settle failed at step capture" }

/-- C2 (counterexample): the claimed uniqueness fails when a row with a
non-null `error_message` already exists — two concurrent admissions can
both read the errored row before either clears it, and then both return
`Retry` (two non-`None` outcomes instead of exactly one). -/
theorem C2_counterexample_double_retry :
    execCount (runAdmits d_ev1 ⟨[erroredRow], [.ready, .ready]⟩ [0, 1, 0, 1]) = 2 ∧
    (∀ p ∈ (runAdmits d_ev1 ⟨[erroredRow], [.ready, .ready]⟩ [0, 1, 0, 1]).procs,
      phaseSettled p = true) := by
  decide

/-- C2 (amended): for first-sight admissions — no pre-existing row for
the event id — every interleaving of `N ≥ 1` concurrent
`check_and_create_webhook_event` calls that runs all of them to
completion yields exactly one non-`None` outcome (`Execute`) and `N − 1`
`Skip` outcomes, enforced by the unique constraint on `event_id` plus the
read-then-act state checks. -/
theorem C2_first_sight_unique_admission
    (d : WebhookEventCreate) (s : Store) (n : Nat) (sched : List Nat)
    (hn : 1 ≤ n)
    (h0 : ∀ r ∈ s, r.event_id ≠ d.event_id)
    (hdone : ∀ p ∈ (runAdmits d (initConfig s n) sched).procs,
      phaseSettled p = true) :
    execCount (runAdmits d (initConfig s n) sched) = 1 ∧
    skipCount (runAdmits d (initConfig s n) sched) = n - 1 := by
  have hinv := admitInv_run d (initConfig s n) sched (admitInv_init d s n h0)
  have hlen : (runAdmits d (initConfig s n) sched).procs.length = n := by
    rw [procs_length_run]; simp [initConfig]
  generalize hcf : runAdmits d (initConfig s n) sched = cf at hinv hdone hlen ⊢
  have hne : cf.procs ≠ [] := by
    intro hnil; rw [hnil] at hlen; simp at hlen; omega
  obtain ⟨p₀, hp₀⟩ := List.exists_mem_of_ne_nil cf.procs hne
  have hczero : eCount d.event_id cf.store ≠ 0 := by
    intro h0c
    have hcontr := hinv.no_settled_of_zero h0c p₀ hp₀
    rw [hdone p₀ hp₀] at hcontr
    cases hcontr
  have hcone : eCount d.event_id cf.store = 1 := by
    have := hinv.count_le; omega
  have hexec : execCount cf = 1 := by rw [hinv.exec_eq, hcone]
  refine ⟨hexec, ?_⟩
  have hpt : ∀ p ∈ cf.procs, phaseSkip p = !phaseExec p := by
    intro p hp
    have hs := hdone p hp
    cases p with
    | ready => simp [phaseSettled] at hs
    | readDone ex => simp [phaseSettled] at hs
    | settled o => cases o <;> simp [phaseSkip, phaseExec]
  have hcongr : cf.procs.countP phaseSkip
      = cf.procs.countP (fun p => !phaseExec p) :=
    List.countP_congr (by intro x hx; simp [hpt x hx])
  have hsplit := List.length_eq_countP_add_countP phaseExec cf.procs
  have hcompl : cf.procs.countP (fun a => decide (¬ phaseExec a = true))
      = cf.procs.countP (fun p => !phaseExec p) :=
    List.countP_congr (by intro x hx; simp)
  show cf.procs.countP phaseSkip = n - 1
  have hex : cf.procs.countP phaseExec = 1 := hexec
  rw [hcongr, ← hcompl]
  omega

/-- C2 (witness): two concurrent first deliveries of `ev_1`, a schedule
completing both: one `Execute` and one `Skip`. -/
theorem C2_witness :
    execCount (runAdmits d_ev1 (initConfig [] 2) [0, 0, 1, 1]) = 1 ∧
    skipCount (runAdmits d_ev1 (initConfig [] 2) [0, 0, 1, 1]) = 2 - 1 :=
  C2_first_sight_unique_admission d_ev1 [] 2 [0, 0, 1, 1] (by decide)
    (by intro r hr; simp at hr) (by decide)

/-- C3: admitting an event whose stored row has a non-null
`error_message` clears the error, persists the change to the store, and
returns `Retry` with the same row — with `error_message` null on the
returned row.  (The repository layer is not under `src/`; its
`update_by_id` is modelled from the spec as mutating the fetched row.) -/
theorem C3_retry_clears_error (s : Store) (d : WebhookEventCreate) (rid : Nat)
    (r : EventRow) (msg : String)
    (hfind : get_by_event_id s d.event_id = some r)
    (herr : r.error_message = some msg) :
    (check_and_create_webhook_event s d rid).1
        = some { r with error_message := none } ∧
    (check_and_create_webhook_event s d rid).2
        = update_error_by_id s r.id none ∧
    get_by_event_id (check_and_create_webhook_event s d rid).2 d.event_id
        = some { r with error_message := none } ∧
    ({ r with error_message := none } : EventRow).error_message = none := by
  have hcc : check_and_create_webhook_event s d rid
      = (some { r with error_message := none }, update_error_by_id s r.id none) := by
    rw [check_and_create_webhook_event, hfind]
    simp [admitResume, herr]
  refine ⟨by rw [hcc], by rw [hcc], ?_, rfl⟩
  rw [hcc]
  exact get_by_event_id_update s d.event_id r none hfind

/-- C3 (witness): the errored `ev_1` row is retried with the error
cleared and persisted. -/
theorem C3_witness :
    (check_and_create_webhook_event [erroredRow] d_ev1 9).1
        = some { erroredRow with error_message := none } ∧
    (check_and_create_webhook_event [erroredRow] d_ev1 9).2
        = update_error_by_id [erroredRow] erroredRow.id none ∧
    get_by_event_id (check_and_create_webhook_event [erroredRow] d_ev1 9).2
        d_ev1.event_id = some { erroredRow with error_message := none } ∧
    ({ erroredRow with error_message := none } : EventRow).error_message = none :=
  C3_retry_clears_error [erroredRow] d_ev1 9 erroredRow
    "settle failed at step capture" rfl rfl

/-- C4: for an admission whose read found no row: a uniqueness violation
on create (a concurrent duplicate inserted meanwhile) is rolled back and
converted to `Skip` (`None`) — the total return type surfaces no error
to the caller — and a successful create yields `Execute` with the newly
created row; the violation fires exactly when a duplicate row exists.
(The store and its unique constraint are not under `src/`; they are
modelled from the spec.) -/
theorem C4_create_race (s : Store) (d : WebhookEventCreate) (rid : Nat) :
    (create s d rid = .error () → admitResume none s d rid = (none, s)) ∧
    (∀ row s', create s d rid = .ok (row, s') →
      admitResume none s d rid = (some row, s') ∧
      row = newRowOf d rid ∧ s' = s ++ [newRowOf d rid]) ∧
    (create s d rid = .error () ↔ ∃ r ∈ s, r.event_id = d.event_id) := by
  refine ⟨?_, ?_, ?_⟩
  · intro herr
    simp [admitResume, herr]
  · intro row s' hok
    refine ⟨by simp [admitResume, hok], ?_⟩
    by_cases hany : s.any (isEventRowFor d.event_id)
    · rw [create, if_pos hany] at hok; cases hok
    · rw [create, if_neg hany] at hok
      injection hok with h1
      exact ⟨(Prod.mk.injEq _ _ _ _ |>.mp h1.symm).1,
        (Prod.mk.injEq _ _ _ _ |>.mp h1.symm).2⟩
  · constructor
    · intro herr
      by_cases hany : s.any (isEventRowFor d.event_id)
      · obtain ⟨r, hr, hP⟩ := List.any_eq_true.mp hany
        exact ⟨r, hr, by simpa [isEventRowFor] using hP⟩
      · rw [create, if_neg hany] at herr; cases herr
    · rintro ⟨r, hr, hre⟩
      have hany : s.any (isEventRowFor d.event_id) = true :=
        List.any_eq_true.mpr ⟨r, hr, by simp [isEventRowFor, hre]⟩
      rw [create, if_pos hany]

/-- C4 (witness): with a duplicate present the create-race admission
skips and leaves the store unchanged; from an empty store it executes
with the freshly created row. -/
theorem C4_witness :
    admitResume none [erroredRow] d_ev1 3 = (none, [erroredRow]) ∧
    admitResume none [] d_ev1 3
      = (some (newRowOf d_ev1 3), [] ++ [newRowOf d_ev1 3]) :=
  ⟨(C4_create_race [erroredRow] d_ev1 3).1 rfl,
   ((C4_create_race [] d_ev1 3).2.1 (newRowOf d_ev1 3)
      ([] ++ [newRowOf d_ev1 3]) rfl).1⟩

/-! ## NetValve gateway service (`app/services/netvalve_service.py`)

Constants from lines 30-97 of the source. -/

def APPROVED_RESPONSE_CODE : String := "GTW_1000"

def APPROVED_BANK_CODE : String := "BNK_2000"

def DECLINE_BANK_CODES : List String :=
  ["05", "51", "14", "54", "41", "43", "61", "62", "65"]

def BANK_DECLINE_REASONS : List (String × String) :=
  [("05", "Card declined by issuing bank"),
   ("51", "Insufficient funds"),
   ("14", "Invalid card number"),
   ("54", "Card expired"),
   ("41", "Card reported lost"),
   ("43", "Card reported stolen"),
   ("61", "Exceeds withdrawal limit"),
   ("62", "Restricted card"),
   ("65", "Exceeds withdrawal frequency")]

def bankDeclineReason (b : String) : Option String :=
  (BANK_DECLINE_REASONS.find? (·.1 == b)).map (·.2)

/-- The alternation literals of `DECLINE_MESSAGE_RE` (lines 59-62). -/
def DECLINE_KEYWORDS : List String :=
  ["declin", "insufficient", "invalid", "not supported", "failed",
   "do not honor", "expired", "lost", "stolen", "restricted"]

def AUTH_FLAG_KEYS : List String :=
  ["authorized", "is_authorized", "hpf_completed", "card_form_submitted"]

def AUTH_STRING_KEYS : List String :=
  ["netvalve_token", "transaction_id", "transactionId",
   "netvalve_transaction_id", "order_id", "orderId",
   "checkout_id", "checkoutId"]

/-- The anchored alternation of `LOOPBACK_IP_RE` (lines 49-51). -/
def LOOPBACK_IPS : List String :=
  ["::1", "::ffff:127.0.0.1", "127.0.0.1", "0.0.0.0"]

def CUSTOMER_FIELD_MAPPING : List (String × String) :=
  [("customer_email", "customerEmail"),
   ("customer_first_name", "customerFirstName"),
   ("customer_last_name", "customerLastName"),
   ("card_holder_name", "cardHolderName"),
   ("customer_phone", "customerPhone"),
   ("customer_address", "customerAddress"),
   ("customer_city", "customerCity"),
   ("customer_state", "customerState"),
   ("customer_zip_code", "customerZipCode"),
   ("customer_country_code", "customerCountryCode")]

/-- `_env`: read a NetValve setting, stripped (`settings` is the `env`
function). -/
def envOf (env : String → String) (key : String) : String :=
  trimStr (env key)

/-- `_pick_string`: first non-empty (stripped) string value among the
keys, else the empty string. -/
def pickString (source : JDict) : List String → String
  | [] => ""
  | k :: rest =>
    match jget source k with
    | some (.s v) => if trimStr v ≠ "" then trimStr v else pickString source rest
    | _ => pickString source rest

/-- `_resolve_netvalve_mid_id` (lines 149-162). -/
def resolve_netvalve_mid_id (env : String → String)
    (currency_code : Option String) : String :=
  let currency := upperStr (currency_code.getD "")
  if currency == "EUR" then envOf env "NETVALVE_MID_ID_EUR"
  else if currency == "USD" then envOf env "NETVALVE_MID_ID_USD"
  else if currency == "PHP" then envOf env "NETVALVE_MID_ID_PHP"
  else
    let usd := envOf env "NETVALVE_MID_ID_USD"
    if usd ≠ "" then usd
    else
      let eur := envOf env "NETVALVE_MID_ID_EUR"
      if eur ≠ "" then eur else envOf env "NETVALVE_MID_ID_PHP"

/-- Characters admitted by `re.sub(r"[^\w\s,.\-]", "", …)` (ASCII word
characters; the regex also admits unicode word characters, which the
order descriptions in play do not contain). -/
def keepDescChar (c : Char) : Bool :=
  c.isAlphanum || c == '_' || c.isWhitespace || c == ',' || c == '.' || c == '-'

/-- `re.sub(r"\s{2,}", " ", …)`: each run of two or more whitespace
characters becomes one space; single whitespace characters stay. -/
def collapseWs : List Char → List Char
  | [] => []
  | [c] => [c]
  | c₁ :: c₂ :: t =>
    if c₁.isWhitespace then
      if c₂.isWhitespace then collapseWs (' ' :: t)
      else c₁ :: collapseWs (c₂ :: t)
    else c₁ :: collapseWs (c₂ :: t)
termination_by l => l.length

/-- `_sanitize_order_description` (lines 174-181). -/
def sanitize_order_description (raw fallback : String) : String :=
  let cleaned := String.mk (collapseWs (raw.data.filter keepDescChar))
  let cleaned := takeStr (trimStr cleaned) 100
  if cleaned ≠ "" then cleaned else fallback

/-- `_build_customer_fields` (lines 184-193). -/
def build_customer_fields (data : JDict) : JDict :=
  CUSTOMER_FIELD_MAPPING.filterMap fun kv =>
    match jget data kv.1 with
    | some (.s v) => if v ≠ "" then some (kv.2, JVal.s v) else none
    | _ => none

/-- `_format_decline_detail` (lines 196-204). -/
def format_decline_detail (result : JDict) : String :=
  let dr := pyOr (jget result "decline_reason") (jget result "declineReason")
  if truthyO dr then " (" ++ pyStr (dr.getD .null) ++ ")"
  else
    let bc := pyOr (jget result "bank_response_code") (jget result "bankResponseCode")
    if truthyO bc then " (bank code " ++ pyStr (bc.getD .null) ++ ")"
    else ""

/-- `_has_payment_confirmation` (lines 207-218). -/
def has_payment_confirmation (data : JDict) : Bool :=
  if data.isEmpty then false
  else
    AUTH_FLAG_KEYS.any (fun k =>
      match jget data k with
      | some (.b true) => true
      | _ => false)
    || AUTH_STRING_KEYS.any (fun k =>
      match jget data k with
      | some (.s v) => v != ""
      | _ => false)

/-! ### POST /sale — `process_payment` (lines 904-1176) -/

/-- The four decline signals of Step 8 (lines 1050-1068). -/
def hasDeclineType (response_code_type : String) : Bool :=
  ["DECLINE", "FAILED", "REJECT"].any (strContains response_code_type ·)

def hasDeclineKeyword (response_message : String) : Bool :=
  DECLINE_KEYWORDS.any (strContains (lowerStr response_message) ·)

def isBankDeclineCode (response_code : String) : Bool :=
  startsWithStr response_code "BNK_" && response_code != APPROVED_BANK_CODE

def inDeclineBankCodes : Option String → Bool
  | some bank => DECLINE_BANK_CODES.contains bank
  | none => false

/-- The `is_success` classification of a `/sale` response
(lines 1070-1077): HTTP status below 400, gateway code equal to the
approved code, and none of the four decline signals firing. -/
def saleSuccess (status : Nat)
    (response_code response_message response_code_type : String)
    (bank_response_code : Option String) : Bool :=
  decide (status < 400)
    && (response_code == APPROVED_RESPONSE_CODE)
    && !hasDeclineType response_code_type
    && !hasDeclineKeyword response_message
    && !isBankDeclineCode response_code
    && !inDeclineBankCodes bank_response_code

/-- Outcome of one outbound HTTP POST, as the service observes it. -/
inductive HttpSaleOutcome where
  | exc (msg : String)
  | nonJson (status : Nat) (text : String)
  | json (status : Nat) (parsed : JDict)

/-- Ambient context of the NetValve service: settings, clock, the cached
public IP resolution, and the `/sale` HTTP oracle (a function of the
payment type and the request payload). -/
structure NetValveCtx where
  env : String → String
  now : Nat
  nowIso : String
  publicIp : String
  sale : String → JDict → HttpSaleOutcome

def optStr : Option String → JVal
  | some v => .s v
  | none => .null

/-- `float(raw_amount)` for the values the schema-validated callers pass
(numbers; `float()` of a non-numeric value raises in the source and is
outside the modelled inputs). -/
def jvalToRat : JVal → Rat
  | .num q => q
  | .b true => 1
  | .b false => 0
  | _ => 0

/-- First key whose value is a non-empty string
(`isinstance(parsed.get(k), str) and parsed[k]`). -/
def firstStringKey (parsed : JDict) (keys : List String) : Option String :=
  keys.findSome? fun k =>
    match jget parsed k with
    | some (.s v) => if v ≠ "" then some v else none
    | _ => none

/-- Card-expiry extraction with fallbacks (lines 1094-1128). -/
def cardExpiryOf (parsed : JDict) : Option String :=
  match firstStringKey parsed
      ["cardExpiry", "expiryDate", "cardExpiryDate",
       "cc_exp_date", "card_expiry", "exp_date",
       "expirationDate", "expiration_date",
       "card_exp", "cc_exp", "expiry"] with
  | some e => some e
  | none =>
    let m := pyOr (jget parsed "cardExpiryMonth") (pyOr (jget parsed "expMonth")
      (pyOr (jget parsed "exp_month") (pyOr (jget parsed "expiryMonth")
        (jget parsed "expiry_month"))))
    let y := pyOr (jget parsed "cardExpiryYear") (pyOr (jget parsed "expYear")
      (pyOr (jget parsed "exp_year") (pyOr (jget parsed "expiryYear")
        (jget parsed "expiry_year"))))
    if isNotNone m && isNotNone y then
      let mm := zfill (pyStr (m.getD .null)) 2
      let yyyy := pyStr (y.getD .null)
      let yyyy := if yyyy.length == 2 then "20" ++ yyyy
        else if yyyy.length == 1 then "200" ++ yyyy else yyyy
      some (mm ++ "/" ++ yyyy)
    else none

/-- `a or b or None` over strings, as a dict value. -/
def strOrNull (a : Option String) (b : String) : JVal :=
  match a with
  | some v => if v ≠ "" then .s v else (if b ≠ "" then .s b else .null)
  | none => if b ≠ "" then .s b else .null

/-- `NetValveService.process_payment` (lines 904-1176): resolve the
payment token, amount, credentials and enrichment fields, POST /sale,
and map the response into a SaleResult dict with the Step 8
approved/declined classification. -/
def process_payment (ctx : NetValveCtx) (data : JDict)
    (payment_type : String) : JDict :=
  let payment_token := pickString data
    ["netvalve_token", "paymentToken", "payment_token", "hpf_payment_token"]
  if payment_token == "" then
    [("success", .b false), ("response_message", .s "No payment token available")]
  else
    let raw_amount := jgetD data "amount" (.num 0)
    let amount : Rat := if truthyJ raw_amount then jvalToRat raw_amount else 0
    let currency_code :=
      upperStr (pyStr ((pyOr (jget data "currency_code") (some (.s "USD"))).getD .null))
    let netvalve_amount := roundTo2 amount
    let client_id := envOf ctx.env "NETVALVE_CLIENT_ID"
    let api_key := envOf ctx.env "NETVALVE_API_KEY"
    let site_id := envOf ctx.env "NETVALVE_SITE_ID"
    let mid_id := resolve_netvalve_mid_id ctx.env (some currency_code)
    let client_order_id :=
      let p := pickString data ["cartId", "cart_id", "client_order_id", "id"]
      if p ≠ "" then p else "medusa_" ++ toString ctx.now
    let raw_desc :=
      let p := pickString data ["order_description", "orderDescription"]
      if p ≠ "" then p else "Order " ++ client_order_id
    let order_desc := sanitize_order_description raw_desc ("Order " ++ client_order_id)
    let email := pickString data ["customer_email", "email_address", "emailAddress"]
    let ip0 := pickString data ["client_ip_address", "ip_address", "ipAddress"]
    let client_ip := if ip0 == "" || LOOPBACK_IPS.contains ip0 then ctx.publicIp else ip0
    let payload :=
      [("amount", JVal.num netvalve_amount), ("currency", JVal.s currency_code),
       ("paymentType", JVal.s payment_type), ("paymentToken", JVal.s payment_token),
       ("siteId", JVal.s site_id), ("netvalveMidId", JVal.s mid_id),
       ("clientOrderId", JVal.s client_order_id), ("orderDesc", JVal.s order_desc)]
      ++ (if email ≠ "" then [("customerEmail", JVal.s email)] else [])
      ++ (if client_ip ≠ "" then [("customerIp", JVal.s client_ip)] else [])
      ++ build_customer_fields data
    match ctx.sale payment_type payload with
    | .exc e =>
      [("success", .b false), ("response_message", .s ("Network error: " ++ e)),
       ("client_order_id", .s client_order_id), ("payment_token", .s payment_token),
       ("site_id", .s site_id), ("mid_id", .s mid_id),
       ("amount", .num netvalve_amount), ("currency", .s currency_code)]
    | .nonJson st text =>
      [("success", .b false), ("response_code", .s (toString st)),
       ("response_message", .s ("Non-JSON response: " ++ takeStr text 200))]
    | .json st parsed =>
      let response_code := pyStr (jgetD parsed "responseCode" (.s ""))
      let response_message := pyStr (jgetD parsed "responseMessage" (.s ""))
      let response_code_type := upperStr (pyStr (jgetD parsed "responseCodeType" (.s "")))
      let transaction_id : Option String :=
        if isNotNone (jget parsed "transactionID")
        then some (pyStr (jgetN parsed "transactionID")) else none
      let order_id : Option String :=
        if isNotNone (jget parsed "orderId")
        then some (pyStr (jgetN parsed "orderId")) else none
      let bank_response_code : Option String :=
        if isNotNone (jget parsed "bankResponseCode")
        then some (pyStr (jgetN parsed "bankResponseCode")) else none
      let decline_reason : Option String :=
        match bank_response_code with
        | some bank => if bank ≠ "" then bankDeclineReason bank else none
        | none => none
      let is_success := saleSuccess st response_code response_message
        response_code_type bank_response_code
      let response_card_type : Option String :=
        match jget parsed "cardType" with
        | some (.s v) => some v
        | _ => none
      let response_card_number : Option String :=
        match jget parsed "cardNumber" with
        | some (.s v) => some v
        | _ => none
      let response_card_expiry := cardExpiryOf parsed
      let gateway_errors : JVal :=
        match jget parsed "errors" with
        | some (.obj f) => .obj f
        | _ => .null
      [("success", .b is_success),
       ("transaction_id", optStr transaction_id),
       ("order_id", optStr order_id),
       ("response_code", .s response_code),
       ("response_message", .s response_message),
       ("bank_response_code", optStr bank_response_code),
       ("decline_reason", optStr decline_reason),
       ("raw", .obj parsed),
       ("client_order_id", .s client_order_id),
       ("payment_token", .s payment_token),
       ("site_id", .s site_id),
       ("mid_id", .s mid_id),
       ("amount", .num netvalve_amount),
       ("currency", .s currency_code),
       ("gateway_errors", gateway_errors),
       ("card_number", optStr response_card_number),
       ("card_type", optStr response_card_type),
       ("card_expiry", strOrNull response_card_expiry
          (pickString data ["card_expiry", "cardExpiry"])),
       ("card_holder_name",
        let h := pickString data ["card_holder_name", "cardHolderName"]
        if h ≠ "" then .s h else .null)]

/-! ### `authorize_payment` (lines 1182-1298) and its response builders
(lines 1505-1595) -/

/-- `data.get("id") or f"netvalve_{int(time.time())}"`. -/
def idOf (ctx : NetValveCtx) (data : JDict) : JVal :=
  match jget data "id" with
  | some v => if truthyJ v then v else .s ("netvalve_" ++ toString ctx.now)
  | none => .s ("netvalve_" ++ toString ctx.now)

def RESULT_COPY_KEYS : List String :=
  ["client_order_id", "payment_token", "site_id", "mid_id", "amount", "currency"]

def CARD_COPY_KEYS : List String :=
  ["card_number", "card_type", "card_expiry", "card_holder_name"]

/-- Conditional per-key copies into the merged response. -/
def keyedUpdates (keys : List String) (f : String → Option JVal) : JDict :=
  keys.filterMap fun k => (f k).map fun v => (k, v)

/-- The request-side identifiers, gateway errors and card metadata the
builders copy from the sale result (lines 1530-1545 / 1575-1590). -/
def saleResultUpdates (sale : JDict) : JDict :=
  keyedUpdates RESULT_COPY_KEYS (fun k =>
    if isNotNone (jget sale k) then some (jgetN sale k) else none)
  ++ (if truthyO (jget sale "gateway_errors")
      then [("errors", jgetN sale "gateway_errors")] else [])
  ++ keyedUpdates CARD_COPY_KEYS (fun k =>
    if truthyO (jget sale k) then some (jgetN sale k) else none)

/-- The dict-literal part of `_build_decline_response_dict`. -/
def declineBase (ctx : NetValveCtx) (input_data sale : JDict) : JDict :=
  [("id", idOf ctx input_data),
   ("status", JVal.s "requires_more"),
   ("requires_payment_input", JVal.b true),
   ("netvalve_sale_attempted", JVal.b true),
   ("netvalve_sale_success", JVal.b false),
   ("netvalve_response_code", jgetN sale "response_code"),
   ("netvalve_response_message", jgetN sale "response_message"),
   ("netvalve_bank_response_code", jgetN sale "bank_response_code"),
   ("netvalve_decline_reason", jgetN sale "decline_reason"),
   ("error_message", JVal.s ("Payment declined" ++ format_decline_detail sale
      ++ ". Please try a different card."))]

/-- `_build_decline_response_dict` (lines 1505-1550). -/
def build_decline_response (ctx : NetValveCtx) (input_data sale : JDict)
    (extra : JDict) : String × JDict :=
  ("requires_more",
   input_data ++ declineBase ctx input_data sale ++ saleResultUpdates sale ++ extra)

/-- The dict-literal part of `_build_authorized_response_dict`. -/
def authorizedBase (ctx : NetValveCtx) (input_data sale : JDict) : JDict :=
  [("id", idOf ctx input_data),
   ("status", JVal.s "authorized"),
   ("requires_payment_input", JVal.b false),
   ("authorized_at", JVal.s ctx.nowIso),
   ("netvalve_sale_attempted", JVal.b true),
   ("netvalve_sale_success", JVal.b true),
   ("netvalve_transaction_id", jgetN sale "transaction_id"),
   ("netvalve_order_id", jgetN sale "order_id"),
   ("netvalve_response_code", jgetN sale "response_code"),
   ("netvalve_response_message", jgetN sale "response_message")]

/-- `_build_authorized_response_dict` (lines 1552-1595). -/
def build_authorized_response (ctx : NetValveCtx) (input_data sale : JDict)
    (extra : JDict) : String × JDict :=
  ("authorized",
   input_data ++ authorizedBase ctx input_data sale ++ saleResultUpdates sale ++ extra)

/-- Result of `authorize_payment`, together with the payment types of the
`process_payment` (sale) invocations it performed. -/
structure AuthResult where
  status : String
  data : JDict
  saleCalls : List String

/-- The already-authorized idempotency guard:
`data.get("netvalve_sale_success") is True and
data.get("netvalve_transaction_id")`. -/
def saleSucceededGuard (data : JDict) : Bool :=
  (match jget data "netvalve_sale_success" with
   | some (.b true) => true
   | _ => false) && truthyO (jget data "netvalve_transaction_id")

/-- `data.get("hpf_completed") is True`. -/
def hpfCompletedFlag (data : JDict) : Bool :=
  match jget data "hpf_completed" with
  | some (.b true) => true
  | _ => false

/-- The stored-token path test: a non-empty string `netvalve_token`
different from the session's `hpf_payment_token`. -/
def storedTokenGuard (data : JDict) : Bool :=
  match jgetD data "netvalve_token" (.s "") with
  | .s sv => sv != "" && !(jvalBEq (.s sv) (jgetD data "hpf_payment_token" (.s "")))
  | _ => false

/-- A string-valued, non-empty external transaction/order proof. -/
def hasExternalProof (data : JDict) : Bool :=
  ["transaction_id", "transactionId", "netvalve_transaction_id",
   "order_id", "orderId"].any fun k =>
    match jget data k with
    | some (.s v) => v != ""
    | _ => false

/-- `NetValveService.authorize_payment` (lines 1182-1298): guard on
missing payment confirmation, the already-authorized idempotency guard,
then the HPF (CARD), stored-token (TOKEN) and external-proof paths. -/
def authorize_payment (ctx : NetValveCtx) (data : JDict) : AuthResult :=
  if !has_payment_confirmation data then
    { status := "requires_more",
      data := data ++
        [("id", idOf ctx data), ("status", .s "requires_more"),
         ("requires_payment_input", .b true), ("payment_type", .s "card"),
         ("message", .s "NetValve payment requires card details before authorizing the order.")],
      saleCalls := [] }
  else if saleSucceededGuard data then
    { status := "authorized",
      data := data ++
        [("id", idOf ctx data), ("status", .s "authorized"),
         ("requires_payment_input", .b false),
         ("authorized_at",
          (pyOr (jget data "authorized_at") (some (.s ctx.nowIso))).getD .null)],
      saleCalls := [] }
  else if hpfCompletedFlag data then
    let sale := process_payment ctx data "CARD"
    if !truthyO (jget sale "success") then
      let r := build_decline_response ctx data sale [("payment_flow", .s "hpf")]
      { status := r.1, data := r.2, saleCalls := ["CARD"] }
    else
      let r := build_authorized_response ctx data sale [("payment_flow", .s "hpf")]
      { status := r.1, data := r.2, saleCalls := ["CARD"] }
  else if storedTokenGuard data then
    let sale := process_payment ctx data "TOKEN"
    if !truthyO (jget sale "success") then
      let r := build_decline_response ctx data sale []
      { status := r.1, data := r.2, saleCalls := ["TOKEN"] }
    else
      let r := build_authorized_response ctx data sale []
      { status := r.1, data := r.2, saleCalls := ["TOKEN"] }
  else if !hasExternalProof data then
    { status := "requires_more",
      data := data ++
        [("id", idOf ctx data), ("status", .s "requires_more"),
         ("requires_payment_input", .b true),
         ("netvalve_sale_attempted", .b false),
         ("netvalve_sale_success", .b false),
         ("error_message", .s "Payment declined — unable to verify payment with NetValve. Please try a different card.")],
      saleCalls := [] }
  else
    { status := "authorized",
      data := data ++
        [("id", idOf ctx data), ("status", .s "authorized"),
         ("requires_payment_input", .b false),
         ("authorized_at", .s ctx.nowIso)],
      saleCalls := [] }

/-! ### `capture_payment` (lines 1304-1362) -/

/-- The success-shaped capture result
(`parsed = resp.json() if resp.status_code < 500 else {}`). -/
def capturedDict (transaction_id : String) (parsed : JDict) : JDict :=
  [("status", .s "captured"),
   ("transaction_id", .s transaction_id),
   ("response_code", jgetN parsed "responseCode"),
   ("response_message", jgetN parsed "responseMessage"),
   ("data", .obj parsed)]

def captureErrorDict (transaction_id err : String) : JDict :=
  [("status", .s "capture_error"),
   ("transaction_id", .s transaction_id),
   ("error", .s err),
   ("data", .obj [])]

/-- `NetValveService.capture_payment`: short-circuit when the sale
already captured the funds, otherwise POST /capture with the integer
transaction id and the rounded amount; every failure maps to a
`capture_error` result.  The second component lists the request payloads
actually POSTed to the gateway. -/
def capture_payment (o : HttpSaleOutcome) (transaction_id : String)
    (amount : Rat) (already_captured : Bool) : JDict × List JDict :=
  if already_captured then
    ([("status", .s "captured"),
      ("transaction_id", .s transaction_id),
      ("data", .obj [])], [])
  else
    match pyToInt transaction_id with
    | none =>
      -- int(transaction_id) raises before the HTTP call; the except
      -- converts it to the structured error result
      (captureErrorDict transaction_id
        ("invalid literal for int() with base 10: " ++ transaction_id), [])
    | some tid =>
      let payload : JDict :=
        [("transactionID", .num (Rat.divInt tid 1)),
         ("amount", .num (roundTo2 amount))]
      match o with
      | .exc e => (captureErrorDict transaction_id e, [payload])
      | .nonJson st _ =>
        if st < 500 then
          -- resp.json() raises; the except converts it
          (captureErrorDict transaction_id "response body is not valid JSON",
           [payload])
        else
          (capturedDict transaction_id [], [payload])
      | .json st parsed =>
        (capturedDict transaction_id (if st < 500 then parsed else []), [payload])

/-! ### `process_webhook` (lines 1469-1499) -/

/-- `NetValveService.process_webhook`: map an inbound webhook event type
to an internal action by substring matching on the lowercased type. -/
def process_webhook (payload : JDict) : JDict :=
  match jget payload "type" with
  | some (.s v) =>
    if v == "" then [("action", .s "NOT_SUPPORTED")]
    else
      let normalized := lowerStr v
      let session_id := pyOr (jget payload "session_id") (jget payload "id")
      let amount := jget payload "amount"
      let webhook_data : JVal :=
        if truthyO session_id
            && (match amount with
                | some (.s _) => true
                | some (.num _) => true
                | some (.b _) => true
                | _ => false) then
          .obj [("session_id", session_id.getD .null), ("amount", amount.getD .null)]
        else .null
      let action :=
        if strContains normalized "authorized" then "AUTHORIZED"
        else if strContains normalized "captured" || strContains normalized "paid" then
          "SUCCESSFUL"
        else if strContains normalized "pending" then "PENDING"
        else if strContains normalized "requires_more"
            || strContains normalized "action_required" then "REQUIRES_MORE"
        else if strContains normalized "failed" || strContains normalized "declined" then
          "FAILED"
        else if strContains normalized "canceled" || strContains normalized "cancelled" then
          "CANCELED"
        else "NOT_SUPPORTED"
      [("action", .s action), ("data", webhook_data)]
  | _ => [("action", .s "NOT_SUPPORTED")]

/-- Modelled from the spec (§4.5, for the refinement comparison):
"lowercase the event-type string and match substrings in priority order —
authorized → AUTHORIZED; captured or paid → SUCCESSFUL; pending →
PENDING; requires_more or action_required → REQUIRES_MORE; failed or
declined → FAILED; canceled/cancelled → CANCELED; otherwise
NOT_SUPPORTED.  First match wins." -/
def classify_event_type_spec (t : String) : String :=
  let n := lowerStr t
  if strContains n "authorized" then "AUTHORIZED"
  else if strContains n "captured" || strContains n "paid" then "SUCCESSFUL"
  else if strContains n "pending" then "PENDING"
  else if strContains n "requires_more" || strContains n "action_required" then
    "REQUIRES_MORE"
  else if strContains n "failed" || strContains n "declined" then "FAILED"
  else if strContains n "canceled" || strContains n "cancelled" then "CANCELED"
  else "NOT_SUPPORTED"

/-! ### Claim theorems for the gateway orchestrators -/

/-- C7: `capture_payment` called with `already_captured = true` performs
no HTTP call (no request payload is posted) and returns exactly
`status = "captured"` with the given transaction id and empty data,
whatever the gateway oracle would have answered. -/
theorem C7_capture_already_captured
    (o : HttpSaleOutcome) (tid : String) (amount : Rat) :
    capture_payment o tid amount true
      = ([("status", .s "captured"), ("transaction_id", .s tid),
          ("data", .obj [])], []) :=
  rfl

/-- C8: for every payload whose event type is the string `ty`,
`process_webhook` returns exactly the action prescribed by the spec's
priority-ordered substring classifier. -/
theorem C8_webhook_classifier (payload : JDict) (ty : String)
    (h : jget payload "type" = some (.s ty)) :
    jget (process_webhook payload) "action"
      = some (.s (classify_event_type_spec ty)) := by
  by_cases hty : (ty == "") = true
  · have hty' : ty = "" := by simpa using hty
    subst hty'
    simp only [process_webhook, h]
    rw [if_pos hty]
    rfl
  · simp only [process_webhook, h]
    rw [if_neg hty]
    rfl

/-- C8 (witness): a concrete captured event classifies as SUCCESSFUL. -/
theorem C8_witness :
    jget (process_webhook [("type", .s "payment.captured")]) "action"
      = some (.s (classify_event_type_spec "payment.captured")) ∧
    classify_event_type_spec "payment.captured" = "SUCCESSFUL" :=
  ⟨C8_webhook_classifier [("type", .s "payment.captured")] "payment.captured" rfl,
   rfl⟩

/-- Session data holding only a payment token, for driving `/sale`. -/
def saleDataTok : JDict := [("paymentToken", .s "tok_123")]

/-- A parsed `/sale` JSON body with the classification-relevant fields. -/
def saleParsed (rc msg rct : String) (bank : Option String) : JDict :=
  [("responseCode", .s rc), ("responseMessage", .s msg),
   ("responseCodeType", .s rct)]
  ++ (match bank with
      | some bk => [("bankResponseCode", JVal.s bk)]
      | none => [])

/-- A context whose `/sale` oracle answers with the given status and
parsed body. -/
def saleCtxOf (status : Nat) (rc msg rct : String)
    (bank : Option String) : NetValveCtx :=
  { env := fun _ => "", now := 0, nowIso := "1970-01-01T00:00:00+00:00",
    publicIp := "",
    sale := fun _ _ => .json status (saleParsed rc msg rct bank) }

/-- C1 (counterexample): a POST /sale response with the approved gateway
code but bank response code "77" — different from the approved bank code
— is still classified `success = true`: changing the bank code away from
the approved bank code does not by itself flip the classification. -/
theorem C1_counterexample_bank_code_flip :
    jget (process_payment (saleCtxOf 200 "GTW_1000" "Approved" "APPROVAL"
        (some "77")) saleDataTok "CARD") "success" = some (.b true) ∧
    ("77" : String) ≠ APPROVED_BANK_CODE := by
  exact ⟨rfl, by decide⟩

/-- C1 (amended): `process_payment` classifies a POST /sale response
`success = true` exactly when the HTTP status is below 400, the gateway
response code equals the approved code, and none of the four decline
signals fires; in particular the approved instance is a success,
changing the gateway code or introducing a decline keyword flips the
classification to declined, and changing the bank response code flips it
exactly when the changed code lies in the fixed decline set. -/
theorem C1_sale_success_classification (status : Nat) (rc msg rct : String)
    (bank : Option String) :
    (jget (process_payment (saleCtxOf status rc msg rct bank) saleDataTok "CARD")
        "success" = some (.b (saleSuccess status rc msg (upperStr rct) bank))) ∧
    (status < 400 → hasDeclineType (upperStr rct) = false →
      rc = APPROVED_RESPONSE_CODE → bank = some APPROVED_BANK_CODE →
      hasDeclineKeyword msg = false →
      jget (process_payment (saleCtxOf status rc msg rct bank) saleDataTok "CARD")
        "success" = some (.b true)) ∧
    (rc ≠ APPROVED_RESPONSE_CODE →
      jget (process_payment (saleCtxOf status rc msg rct bank) saleDataTok "CARD")
        "success" = some (.b false)) ∧
    (hasDeclineKeyword msg = true →
      jget (process_payment (saleCtxOf status rc msg rct bank) saleDataTok "CARD")
        "success" = some (.b false)) ∧
    (∀ bk, bank = some bk → bk ∈ DECLINE_BANK_CODES →
      jget (process_payment (saleCtxOf status rc msg rct bank) saleDataTok "CARD")
        "success" = some (.b false)) ∧
    (status < 400 → hasDeclineType (upperStr rct) = false →
      rc = APPROVED_RESPONSE_CODE → hasDeclineKeyword msg = false →
      ∀ bk, bank = some bk → bk ∉ DECLINE_BANK_CODES →
      jget (process_payment (saleCtxOf status rc msg rct bank) saleDataTok "CARD")
        "success" = some (.b true)) := by
  have ha : jget (process_payment (saleCtxOf status rc msg rct bank) saleDataTok
      "CARD") "success" = some (.b (saleSuccess status rc msg (upperStr rct) bank)) := by
    cases bank <;> rfl
  refine ⟨ha, ?_, ?_, ?_, ?_, ?_⟩
  · intro h1 h2 h3 h4 h5
    rw [ha]
    subst h3 h4
    simp [saleSuccess, h1, h2, h5, APPROVED_RESPONSE_CODE, isBankDeclineCode,
      inDeclineBankCodes, APPROVED_BANK_CODE, DECLINE_BANK_CODES]
    decide
  · intro h1
    rw [ha]
    have h2 : (rc == APPROVED_RESPONSE_CODE) = false := beq_eq_false_iff_ne.mpr h1
    simp [saleSuccess, h2]
  · intro h1
    rw [ha]
    simp [saleSuccess, h1]
  · intro bk hbk hmem
    rw [ha]
    subst hbk
    have h2 : inDeclineBankCodes (some bk) = true := by
      simpa [inDeclineBankCodes] using hmem
    simp [saleSuccess, h2]
  · intro h1 h2 h3 h4 bk hbk hmem
    rw [ha]
    subst h3 hbk
    have h5 : inDeclineBankCodes (some bk) = false := by
      simp [inDeclineBankCodes]
      simpa using hmem
    simp [saleSuccess, h1, h2, h4, h5, APPROVED_RESPONSE_CODE, isBankDeclineCode]
    decide

/-- C1 (witness): the approved instance — HTTP 200, approved gateway
code, approved bank code, benign type and message — classifies as a
success. -/
theorem C1_witness :
    jget (process_payment (saleCtxOf 200 "GTW_1000" "Transaction approved"
        "APPROVAL" (some "BNK_2000")) saleDataTok "CARD") "success"
      = some (.b true) :=
  (C1_sale_success_classification 200 "GTW_1000" "Transaction approved"
    "APPROVAL" (some "BNK_2000")).2.1
    (by decide) (by decide) rfl rfl (by decide)

/-- A context whose sale oracle is never expected to answer. -/
def authCtx0 : NetValveCtx :=
  { env := fun _ => "", now := 0, nowIso := "1970-01-01T00:00:00+00:00",
    publicIp := "", sale := fun _ _ => .exc "unreachable" }

/-- C5 (counterexample): session data with `hpf_completed = true` and no
stored token, but with `netvalve_sale_success = true` and a transaction
id: the already-authorized idempotency guard returns before the CARD
sale path, so no sale operation is invoked — the claimed "always invokes
the CARD sale path" fails. -/
theorem C5_counterexample_idempotency_guard :
    (authorize_payment authCtx0
      [("hpf_completed", .b true), ("netvalve_sale_success", .b true),
       ("netvalve_transaction_id", .s "42")]).saleCalls = [] ∧
    (authorize_payment authCtx0
      [("hpf_completed", .b true), ("netvalve_sale_success", .b true),
       ("netvalve_transaction_id", .s "42")]).status = "authorized" :=
  ⟨rfl, rfl⟩

/-- C5 (amended): when `hpf_completed = true`, no stored token is
present and the already-authorized idempotency guard does not fire, the
CARD sale path is always invoked — whatever else (e.g. a transaction id)
the session carries; and session data holding only a non-empty
transaction id authorizes locally without invoking the sale operation. -/
theorem C5_authorization_path_selection :
    (∀ (ctx : NetValveCtx) (data : JDict),
      jget data "hpf_completed" = some (.b true) →
      jget data "netvalve_token" = none →
      saleSucceededGuard data = false →
      (authorize_payment ctx data).saleCalls = ["CARD"]) ∧
    (∀ (ctx : NetValveCtx) (tid : String), tid ≠ "" →
      (authorize_payment ctx [("transaction_id", .s tid)]).saleCalls = [] ∧
      (authorize_payment ctx [("transaction_id", .s tid)]).status = "authorized") := by
  constructor
  · intro ctx data h1 _h2 h3
    have hne : data.isEmpty = false := by
      cases data with
      | nil => rw [jget_nil] at h1; cases h1
      | cons a t => rfl
    have hconf : has_payment_confirmation data = true := by
      have hflags : (AUTH_FLAG_KEYS.any fun k =>
          match jget data k with
          | some (JVal.b true) => true
          | _ => false) = true :=
        List.any_eq_true.mpr
          ⟨"hpf_completed", by decide, by rw [h1]⟩
      simp [has_payment_confirmation, hne, hflags]
    have hflag : hpfCompletedFlag data = true := by
      simp only [hpfCompletedFlag]
      rw [h1]
    simp [authorize_payment, hconf, h3, hflag, apply_ite]
  · intro ctx tid htid
    obtain ⟨td⟩ := tid
    cases td with
    | nil => exact absurd rfl htid
    | cons c cs => exact ⟨rfl, rfl⟩

/-- C5 (witness): hpf-completed session data with a transaction id but a
non-firing idempotency guard invokes the CARD sale; a transaction-id-only
session authorizes locally with no sale call. -/
theorem C5_witness :
    (authorize_payment authCtx0
      [("hpf_completed", .b true), ("transaction_id", .s "42")]).saleCalls
        = ["CARD"] ∧
    (authorize_payment authCtx0 [("transaction_id", .s "42")]).saleCalls = [] ∧
    (authorize_payment authCtx0 [("transaction_id", .s "42")]).status
        = "authorized" :=
  ⟨C5_authorization_path_selection.1 authCtx0
      [("hpf_completed", .b true), ("transaction_id", .s "42")] rfl rfl rfl,
   (C5_authorization_path_selection.2 authCtx0 "42" (by decide)).1,
   (C5_authorization_path_selection.2 authCtx0 "42" (by decide)).2⟩

/-! ### The result invariant of `authorize_payment` (C10) -/

theorem mem_keyedUpdates_fst (keys : List String) (f : String → Option JVal)
    (kv : String × JVal) (h : kv ∈ keyedUpdates keys f) : kv.1 ∈ keys := by
  simp only [keyedUpdates, List.mem_filterMap] at h
  obtain ⟨k, hk, hv⟩ := h
  obtain ⟨v, _, hv2⟩ := Option.map_eq_some'.mp hv
  rw [← hv2]
  exact hk

theorem saleResultUpdates_keys (sale : JDict) (kv : String × JVal)
    (h : kv ∈ saleResultUpdates sale) :
    kv.1 ∈ RESULT_COPY_KEYS ∨ kv.1 = "errors" ∨ kv.1 ∈ CARD_COPY_KEYS := by
  simp only [saleResultUpdates, List.append_assoc, List.mem_append] at h
  rcases h with h | h | h
  · exact Or.inl (mem_keyedUpdates_fst _ _ _ h)
  · refine Or.inr (Or.inl ?_)
    by_cases hg : truthyO (jget sale "gateway_errors") = true
    · rw [if_pos hg] at h
      simp at h
      rw [h]
    · rw [if_neg hg] at h
      simp at h
  · exact Or.inr (Or.inr (mem_keyedUpdates_fst _ _ _ h))

theorem jget_saleResultUpdates_none (sale : JDict) (k : String)
    (hk1 : k ∉ RESULT_COPY_KEYS) (hk2 : k ≠ "errors") (hk3 : k ∉ CARD_COPY_KEYS) :
    jget (saleResultUpdates sale) k = none := by
  apply jget_eq_none_of_keys_ne
  intro kv hkv
  rcases saleResultUpdates_keys sale kv hkv with h1 | h1 | h1
  · intro he; rw [he] at h1; exact hk1 h1
  · intro he; apply hk2; rw [← he]; exact h1
  · intro he; rw [he] at h1; exact hk3 h1

theorem build_decline_status (ctx : NetValveCtx) (input_data sale extra : JDict)
    (hex : ∀ kv ∈ extra, kv.1 ≠ "status") :
    jget (build_decline_response ctx input_data sale extra).2 "status"
      = some (.s "requires_more") := by
  have h1 : jget (saleResultUpdates sale) "status" = none :=
    jget_saleResultUpdates_none sale "status" (by decide) (by decide) (by decide)
  have h2 : jget extra "status" = none := jget_eq_none_of_keys_ne extra "status" hex
  show jget (input_data ++ declineBase ctx input_data sale
      ++ saleResultUpdates sale ++ extra) "status" = _
  rw [jget_append, h2, jget_append, h1, jget_append]
  rfl

theorem build_decline_id (ctx : NetValveCtx) (input_data sale extra : JDict)
    (hex : ∀ kv ∈ extra, kv.1 ≠ "id") :
    jget (build_decline_response ctx input_data sale extra).2 "id"
      = some (idOf ctx input_data) := by
  have h1 : jget (saleResultUpdates sale) "id" = none :=
    jget_saleResultUpdates_none sale "id" (by decide) (by decide) (by decide)
  have h2 : jget extra "id" = none := jget_eq_none_of_keys_ne extra "id" hex
  show jget (input_data ++ declineBase ctx input_data sale
      ++ saleResultUpdates sale ++ extra) "id" = _
  rw [jget_append, h2, jget_append, h1, jget_append]
  rfl

theorem build_authorized_status (ctx : NetValveCtx) (input_data sale extra : JDict)
    (hex : ∀ kv ∈ extra, kv.1 ≠ "status") :
    jget (build_authorized_response ctx input_data sale extra).2 "status"
      = some (.s "authorized") := by
  have h1 : jget (saleResultUpdates sale) "status" = none :=
    jget_saleResultUpdates_none sale "status" (by decide) (by decide) (by decide)
  have h2 : jget extra "status" = none := jget_eq_none_of_keys_ne extra "status" hex
  show jget (input_data ++ authorizedBase ctx input_data sale
      ++ saleResultUpdates sale ++ extra) "status" = _
  rw [jget_append, h2, jget_append, h1, jget_append]
  rfl

theorem build_authorized_id (ctx : NetValveCtx) (input_data sale extra : JDict)
    (hex : ∀ kv ∈ extra, kv.1 ≠ "id") :
    jget (build_authorized_response ctx input_data sale extra).2 "id"
      = some (idOf ctx input_data) := by
  have h1 : jget (saleResultUpdates sale) "id" = none :=
    jget_saleResultUpdates_none sale "id" (by decide) (by decide) (by decide)
  have h2 : jget extra "id" = none := jget_eq_none_of_keys_ne extra "id" hex
  show jget (input_data ++ authorizedBase ctx input_data sale
      ++ saleResultUpdates sale ++ extra) "id" = _
  rw [jget_append, h2, jget_append, h1, jget_append]
  rfl

theorem extra_hpf_keys_ne (k : String) (hk : k ≠ "payment_flow") :
    ∀ kv ∈ ([("payment_flow", JVal.s "hpf")] : JDict), kv.1 ≠ k := by
  intro kv hkv
  simp at hkv
  subst hkv
  exact fun he => hk he.symm

/-- C10 (amended): every `authorize_payment` result has top-level status
`"authorized"` or `"requires_more"`, the returned data's `"status"` field
equals the top-level status, and the returned data's `"id"` is the
input's `id` when that is present and truthy, otherwise the freshly
generated non-empty `netvalve_`-prefixed identifier. -/
theorem C10_authorize_result_invariant (ctx : NetValveCtx) (data : JDict) :
    ((authorize_payment ctx data).status = "authorized" ∨
     (authorize_payment ctx data).status = "requires_more") ∧
    jget (authorize_payment ctx data).data "status"
      = some (.s (authorize_payment ctx data).status) ∧
    jget (authorize_payment ctx data).data "id" = some (idOf ctx data) ∧
    (∀ v, jget data "id" = some v → truthyJ v = true → idOf ctx data = v) ∧
    ((jget data "id" = none ∨ ∃ v, jget data "id" = some v ∧ truthyJ v = false) →
      idOf ctx data = .s ("netvalve_" ++ toString ctx.now)) ∧
    ("netvalve_" ++ toString ctx.now : String) ≠ "" := by
  have hid1 : ∀ v, jget data "id" = some v → truthyJ v = true →
      idOf ctx data = v := by
    intro v hv htv
    simp [idOf, hv, htv]
  have hid2 : (jget data "id" = none ∨
      ∃ v, jget data "id" = some v ∧ truthyJ v = false) →
      idOf ctx data = .s ("netvalve_" ++ toString ctx.now) := by
    rintro (hv | ⟨v, hv, htv⟩)
    · simp [idOf, hv]
    · simp [idOf, hv, htv]
  have hfresh : ("netvalve_" ++ toString ctx.now : String) ≠ "" := by
    intro h
    have hlen : ("netvalve_" ++ toString ctx.now : String).length = 0 := by
      rw [h]; rfl
    rw [String.length_append] at hlen
    have h9 : ("netvalve_" : String).length = 9 := rfl
    omega
  by_cases h1 : has_payment_confirmation data = true
  · by_cases h2 : saleSucceededGuard data = true
    · have he : authorize_payment ctx data =
          { status := "authorized",
            data := data ++
              [("id", idOf ctx data), ("status", .s "authorized"),
               ("requires_payment_input", .b false),
               ("authorized_at",
                (pyOr (jget data "authorized_at") (some (.s ctx.nowIso))).getD .null)],
            saleCalls := [] } := by
        simp [authorize_payment, h1, h2]
      rw [he]
      exact ⟨Or.inl rfl, by rw [jget_append]; rfl, by rw [jget_append]; rfl,
        hid1, hid2, hfresh⟩
    · by_cases h3 : hpfCompletedFlag data = true
      · by_cases h4 : truthyO (jget (process_payment ctx data "CARD") "success") = true
        · have he : authorize_payment ctx data =
              { status := "authorized",
                data := (build_authorized_response ctx data
                  (process_payment ctx data "CARD") [("payment_flow", .s "hpf")]).2,
                saleCalls := ["CARD"] } := by
            simp [authorize_payment, h1, h2, h3, h4, build_authorized_response]
          rw [he]
          exact ⟨Or.inl rfl,
            build_authorized_status ctx data _ _ (extra_hpf_keys_ne _ (by decide)),
            build_authorized_id ctx data _ _ (extra_hpf_keys_ne _ (by decide)),
            hid1, hid2, hfresh⟩
        · have he : authorize_payment ctx data =
              { status := "requires_more",
                data := (build_decline_response ctx data
                  (process_payment ctx data "CARD") [("payment_flow", .s "hpf")]).2,
                saleCalls := ["CARD"] } := by
            simp [authorize_payment, h1, h2, h3, h4, build_decline_response]
          rw [he]
          exact ⟨Or.inr rfl,
            build_decline_status ctx data _ _ (extra_hpf_keys_ne _ (by decide)),
            build_decline_id ctx data _ _ (extra_hpf_keys_ne _ (by decide)),
            hid1, hid2, hfresh⟩
      · by_cases h5 : storedTokenGuard data = true
        · by_cases h6 : truthyO (jget (process_payment ctx data "TOKEN") "success") = true
          · have he : authorize_payment ctx data =
                { status := "authorized",
                  data := (build_authorized_response ctx data
                    (process_payment ctx data "TOKEN") []).2,
                  saleCalls := ["TOKEN"] } := by
              simp [authorize_payment, h1, h2, h3, h5, h6, build_authorized_response]
            rw [he]
            exact ⟨Or.inl rfl,
              build_authorized_status ctx data _ _ (by intro kv hkv; cases hkv),
              build_authorized_id ctx data _ _ (by intro kv hkv; cases hkv),
              hid1, hid2, hfresh⟩
          · have he : authorize_payment ctx data =
                { status := "requires_more",
                  data := (build_decline_response ctx data
                    (process_payment ctx data "TOKEN") []).2,
                  saleCalls := ["TOKEN"] } := by
              simp [authorize_payment, h1, h2, h3, h5, h6, build_decline_response]
            rw [he]
            exact ⟨Or.inr rfl,
              build_decline_status ctx data _ _ (by intro kv hkv; cases hkv),
              build_decline_id ctx data _ _ (by intro kv hkv; cases hkv),
              hid1, hid2, hfresh⟩
        · by_cases h7 : hasExternalProof data = true
          · have he : authorize_payment ctx data =
                { status := "authorized",
                  data := data ++
                    [("id", idOf ctx data), ("status", .s "authorized"),
                     ("requires_payment_input", .b false),
                     ("authorized_at", .s ctx.nowIso)],
                  saleCalls := [] } := by
              simp [authorize_payment, h1, h2, h3, h5, h7]
            rw [he]
            exact ⟨Or.inl rfl, by rw [jget_append]; rfl, by rw [jget_append]; rfl,
              hid1, hid2, hfresh⟩
          · have he : authorize_payment ctx data =
                { status := "requires_more",
                  data := data ++
                    [("id", idOf ctx data), ("status", .s "requires_more"),
                     ("requires_payment_input", .b true),
                     ("netvalve_sale_attempted", .b false),
                     ("netvalve_sale_success", .b false),
                     ("error_message", .s "Payment declined — unable to verify payment with NetValve. Please try a different card.")],
                  saleCalls := [] } := by
              simp [authorize_payment, h1, h2, h3, h5, h7]
            rw [he]
            exact ⟨Or.inr rfl, by rw [jget_append]; rfl, by rw [jget_append]; rfl,
              hid1, hid2, hfresh⟩
  · have he : authorize_payment ctx data =
        { status := "requires_more",
          data := data ++
            [("id", idOf ctx data), ("status", .s "requires_more"),
             ("requires_payment_input", .b true), ("payment_type", .s "card"),
             ("message", .s "NetValve payment requires card details before authorizing the order.")],
          saleCalls := [] } := by
      simp [authorize_payment, h1]
    rw [he]
    exact ⟨Or.inr rfl, by rw [jget_append]; rfl, by rw [jget_append]; rfl,
      hid1, hid2, hfresh⟩

/-- C10 (counterexample): an input whose `id` is present but the empty
string (falsy) does not keep the input's id — `data.get("id") or …`
replaces it with the freshly generated identifier. -/
theorem C10_counterexample_empty_id :
    jget (authorize_payment authCtx0 [("id", JVal.s "")]).data "id"
      = some (.s "netvalve_0") ∧
    some (JVal.s "netvalve_0") ≠ some (JVal.s "") := by
  refine ⟨rfl, ?_⟩
  intro h
  simp at h

/-- C10 (witness): the invariant at concrete inputs — a truthy input id
is kept, an empty input id is replaced by the fresh id. -/
theorem C10_witness :
    idOf authCtx0 [("id", JVal.s "sess_1")] = JVal.s "sess_1" ∧
    idOf authCtx0 [("id", JVal.s "")] = JVal.s ("netvalve_" ++ toString authCtx0.now) ∧
    jget (authorize_payment authCtx0 [("id", JVal.s "sess_1")]).data "status"
      = some (.s (authorize_payment authCtx0 [("id", JVal.s "sess_1")]).status) :=
  ⟨(C10_authorize_result_invariant authCtx0 [("id", JVal.s "sess_1")]).2.2.2.1
      (JVal.s "sess_1") rfl rfl,
   (C10_authorize_result_invariant authCtx0 [("id", JVal.s "")]).2.2.2.2.1
      (Or.inr ⟨JVal.s "", rfl, rfl⟩),
   (C10_authorize_result_invariant authCtx0 [("id", JVal.s "sess_1")]).2.1⟩

/-! ## Slack alerting (`app/services/slack_service.py`) -/

/-- Outcome of the POST to the Slack webhook, as `_execute_query`
observes it: `raise_for_status` raising on an HTTP error status, any
other exception, or a 2xx response with its text and (when it parses)
its JSON body. -/
inductive SlackHttpOutcome where
  | statusError (e : String)
  | otherError (e : String)
  | ok (text : String) (parsed : Option JVal)

/-- Settings, clock and HTTP oracle of the Slack service. -/
structure SlackCtx where
  slackUrl : String
  environment : String
  timestamp : String
  http : String → JVal → SlackHttpOutcome

/-- `SlackService._execute_query` (lines 14-46): POST the payload; both
the HTTP-status branch and the catch-all branch re-raise
`Exception("Slack API error: …")` (modelled as `Except.error`). -/
def execute_query (ctx : SlackCtx) (endpoint : String) (payload : JVal) :
    Except String JVal :=
  match ctx.http endpoint payload with
  | .statusError e => .error ("Slack API error: " ++ e)
  | .otherError e => .error ("Slack API error: " ++ e)
  | .ok text parsed =>
    let t := trimStr text
    if t != "" then
      match parsed with
      | some v => .ok v
      | none => .ok (.obj [("status", .s "ok"), ("message", .s t)])
    else .ok (.obj [("status", .s "ok"), ("message", .s "Message sent successfully")])

/-- `SlackService.send_critical_alert` (lines 48-100): build the alert
blocks and delegate to `_execute_query` — with no exception handling of
its own. -/
def send_critical_alert (ctx : SlackCtx) (title alert : String)
    (platform : Option String) : Except String JVal :=
  let env := pyTitle ctx.environment
  let detail_blocks : List JVal :=
    [.obj [("type", .s "section"),
           ("text", .obj [("type", .s "mrkdwn"), ("text", .s alert)])],
     .obj [("type", .s "divider")]]
  let fields : List JVal :=
    [.obj [("type", .s "mrkdwn"), ("text", .s "*Severity*\n🔴 Critical")],
     .obj [("type", .s "mrkdwn"), ("text", .s ("*Environment*\n" ++ env))]]
    ++ (match platform with
        | some p => [.obj [("type", .s "mrkdwn"), ("text", .s ("*Platform*\n" ++ p))]]
        | none => [])
    ++ [.obj [("type", .s "mrkdwn"), ("text", .s ("*Timestamp*\n" ++ ctx.timestamp))]]
  let detail_blocks := detail_blocks
    ++ [.obj [("type", .s "section"), ("fields", .arr fields)]]
  let payload : JVal :=
    .obj [("blocks", .arr
            [.obj [("type", .s "header"),
                   ("text", .obj [("type", .s "plain_text"),
                                  ("text", .s ("🚨  " ++ title)),
                                  ("emoji", .b true)])]]),
          ("attachments", .arr
            [.obj [("color", .s "#E01E5A"), ("blocks", .arr detail_blocks)]])]
  execute_query ctx ctx.slackUrl payload

/-- The call-site wrapper every caller uses (`webhooks.py` lines
139-146, 177-189, 212-223): `try: await slack_service.send_critical_alert(…)
except Exception: logger.error(…)`. -/
def send_alert_best_effort (ctx : SlackCtx) (title alert : String)
    (platform : Option String) : Option JVal :=
  match send_critical_alert ctx title alert platform with
  | .ok v => some v
  | .error _ => none

theorem execute_query_error (ctx : SlackCtx) (endpoint : String)
    (payload : JVal) (e : String)
    (he : execute_query ctx endpoint payload = .error e) :
    startsWithStr e "Slack API error: " = true := by
  have hpre : ∀ m : String,
      startsWithStr ("Slack API error: " ++ m) "Slack API error: " = true := by
    intro m
    simp only [startsWithStr, String.data_append]
    exact List.isPrefixOf_iff_prefix.mpr (List.prefix_append _ _)
  rw [execute_query] at he
  cases hh : ctx.http endpoint payload with
  | statusError m =>
    rw [hh] at he
    have hm : e = "Slack API error: " ++ m := by
      injection he with h'
      exact h'.symm
    rw [hm]
    exact hpre m
  | otherError m =>
    rw [hh] at he
    have hm : e = "Slack API error: " ++ m := by
      injection he with h'
      exact h'.symm
    rw [hm]
    exact hpre m
  | ok text parsed =>
    rw [hh] at he
    dsimp only at he
    split at he
    · cases parsed <;> simp at he
    · simp at he

/-- A concrete failing delivery: the Slack webhook answers with an HTTP
error status. -/
def slackCtxFail : SlackCtx :=
  { slackUrl := "https://hooks.slack.example/T000",
    environment := "production",
    timestamp := "Oct 12, 2026 at 01:00 PM UTC",
    http := fun _ _ => .statusError "Server error 500 for url hooks.slack.example" }

/-- C9 (counterexample): a failed alert delivery propagates an exception
out of `send_critical_alert` — the wrapped `Slack API error` is re-raised
to the caller, so `send_critical_alert` is not "never raises". -/
theorem C9_counterexample_alert_raises :
    send_critical_alert slackCtxFail "Processing Failed" "boom" (some "Solidgate")
      = .error "Slack API error: Server error 500 for url hooks.slack.example" :=
  rfl

/-- C9 (amended): `send_critical_alert` propagates every delivery
failure (HTTP error status, network error, or unexpected exception) to
its caller as a raised exception wrapped as `Slack API error: …`;
best-effort behaviour is realised one level up — every call site wraps
the call in try/except, so the failure never escapes the wrapper. -/
theorem C9_alert_error_wrapping :
    (∀ (ctx : SlackCtx) (title alert : String) (platform : Option String)
        (e : String),
      send_critical_alert ctx title alert platform = .error e →
      startsWithStr e "Slack API error: " = true) ∧
    (∀ (ctx : SlackCtx) (title alert : String) (platform : Option String)
        (e : String),
      send_critical_alert ctx title alert platform = .error e →
      send_alert_best_effort ctx title alert platform = none) := by
  constructor
  · intro ctx title alert platform e he
    exact execute_query_error ctx ctx.slackUrl _ e he
  · intro ctx title alert platform e he
    simp [send_alert_best_effort, he]

/-- C9 (witness): at the concrete failing delivery the raised exception
carries the `Slack API error` wrapper and the call-site wrapper observes
no exception. -/
theorem C9_witness :
    startsWithStr "Slack API error: Server error 500 for url hooks.slack.example"
      "Slack API error: " = true ∧
    send_alert_best_effort slackCtxFail "Processing Failed" "boom"
      (some "Solidgate") = none :=
  ⟨C9_alert_error_wrapping.1 slackCtxFail "Processing Failed" "boom"
      (some "Solidgate") _ rfl,
   C9_alert_error_wrapping.2 slackCtxFail "Processing Failed" "boom"
      (some "Solidgate") _ rfl⟩

/-! ## HPF session waterfall (`netvalve_service.py` lines 711-898) -/

def SANDBOX_BACKOFFICE_URL : String := "https://backoffice-api.uat.sandbox-netvalve.com"

def PRODUCTION_BACKOFFICE_URL : String := "https://backoffice-api.netvalve.com"

def SANDBOX_PAYMENT_API_URL : String := "https://payment-api.uat.sandbox-netvalve.com"

def PRODUCTION_PAYMENT_API_URL : String := "https://api.netvalve.com"

def SANDBOX_HPP_BASE_URL : String := "https://hpp-api.uat.sandbox-netvalve.com"

def PRODUCTION_HPP_BASE_URL : String := "https://hpp-api.netvalve.com"

def SANDBOX_DEFAULT_HPF_SCRIPT_SRC : String :=
  "https://tokenfield.uat.sandbox-netvalve.com/sdk/index.DUbZDKWj.js"

/-- Python `a or b` on strings. -/
def pyOrStr (a b : String) : String := if a ≠ "" then a else b

def is_sandbox (env : String → String) : Bool :=
  envOf env "NETVALVE_ENVIRONMENT" == "sandbox"

def resolve_backoffice_url (env : String → String) : String :=
  pyOrStr (envOf env "NETVALVE_BACKOFFICE_API_URL")
    (if is_sandbox env then SANDBOX_BACKOFFICE_URL else PRODUCTION_BACKOFFICE_URL)

def resolve_payment_api_url (env : String → String) : String :=
  pyOrStr (envOf env "NETVALVE_PAYMENT_API_URL")
    (pyOrStr (envOf env "NETVALVE_BASE_URL")
      (if is_sandbox env then SANDBOX_PAYMENT_API_URL else PRODUCTION_PAYMENT_API_URL))

def resolve_hpp_base_url (env : String → String) : String :=
  pyOrStr (envOf env "NETVALVE_HPP_BASE_URL")
    (if is_sandbox env then
      pyOrStr (envOf env "NETVALVE_SANDBOX_HPP_BASE_URL") SANDBOX_HPP_BASE_URL
    else
      pyOrStr (envOf env "NETVALVE_PRODUCTION_HPP_BASE_URL") PRODUCTION_HPP_BASE_URL)

/-- `_resolve_fallback_hpf_script_src` (lines 140-146). -/
def resolve_fallback_hpf_script_src (env : String → String) : String :=
  let explicit := envOf env "NETVALVE_HPF_SCRIPT_FALLBACK_SRC"
  if explicit ≠ "" then explicit
  else if is_sandbox env then SANDBOX_DEFAULT_HPF_SCRIPT_SRC
  else ""

def splitCharList (l : List Char) (c : Char) : List (List Char) :=
  l.foldr (fun ch acc =>
    match acc with
    | cur :: rest => if ch == c then [] :: cur :: rest else (ch :: cur) :: rest
    | [] => [[ch]]) [[]]

/-- `_pick_first_store_url` (lines 221-228). -/
def pick_first_store_url (env : String → String) : String :=
  let configured := envOf env "NETVALVE_RETURN_BASE_URL"
  if configured ≠ "" then configured
  else
    let parts := ((splitCharList (env "CORS_ORIGINS").data ',').map
      (fun l => trimStr (String.mk l))).filter (· ≠ "")
    match parts with
    | p :: _ => p
    | [] => "http://localhost:8000"

/-- Python `str.rstrip("/")`. -/
def rstripSlash (s : String) : String :=
  String.mk (s.data.reverse.dropWhile (· == '/')).reverse

/-- An HTTP response as the waterfall observes it: status, parsed JSON
(`none` when `resp.json()` raises), raw text and whether the
content-type is JSON. -/
structure HttpResp where
  status : Nat
  body : Option JVal
  text : String
  jsonContentType : Bool

inductive HttpOutcome where
  | exc (msg : String)
  | resp (r : HttpResp)

/-- Network oracle of the session waterfall: the outcomes of the
initializeSession call, the backoffice sign-in, the script fetch, and
each candidate HPP order POST (by URL). -/
structure SessionOracle where
  initSession : HttpOutcome
  signIn : HttpOutcome
  fetchScripts : HttpOutcome
  hpp : String → HttpOutcome

/-- Service-instance state: the cached backoffice token (token and
expiry in ms) and the clock. -/
structure SessionState where
  cachedToken : Option (String × Int)
  nowMs : Int
  nowSec : Nat

/-- `initialize_hpf_session` (lines 367-411): requires client id and api
key, a 200 JSON object response, and a script src or payment token. -/
def initialize_hpf_session (env : String → String) (o : SessionOracle) :
    Option JVal :=
  if envOf env "NETVALVE_CLIENT_ID" == "" || envOf env "NETVALVE_API_KEY" == "" then
    none
  else
    match o.initSession with
    | .exc _ => none
    | .resp r =>
      if r.status ≠ 200 then none
      else
        match r.body with
        | some (.obj f) =>
          if !truthyO (jget f "netvalveScriptSrc") && !truthyO (jget f "paymentToken")
          then none else some (.obj f)
        | _ => none

/-- `_get_backoffice_token` (lines 308-361): cached token with a
5-minute pre-expiry buffer, else sign in with the configured
credentials.  (The cache write is unobservable within a single
`create_hpf_session` call and is not threaded back.) -/
def get_backoffice_token (env : String → String) (st : SessionState)
    (o : SessionOracle) : Option String :=
  let fresh : Option String :=
    if envOf env "NETVALVE_BASIC_AUTH_USERNAME" == ""
        || envOf env "NETVALVE_BASIC_AUTH_PASSWORD" == "" then none
    else
      match o.signIn with
      | .exc _ => none
      | .resp r =>
        if r.status ≠ 200 then none
        else
          match r.body with
          | some (.obj f) =>
            match jget f "accessToken" with
            | some v => if truthyJ v then some (pyStr v) else none
            | none => none
          | _ => none
  match st.cachedToken with
  | some (tok, expAt) => if st.nowMs < expAt - 300000 then some tok else fresh
  | none => fresh

def scriptCreatedDate (s : JVal) : String :=
  match s with
  | .obj f =>
    match jget f "createdDate" with
    | some (.s v) => v
    | _ => ""
  | _ => ""

def insertByCreatedDesc (x : JVal) : List JVal → List JVal
  | [] => [x]
  | y :: ys =>
    if scriptCreatedDate y < scriptCreatedDate x then x :: y :: ys
    else y :: insertByCreatedDesc x ys

/-- `active.sort(key=…createdDate…, reverse=True)` as an insertion sort
by creation date descending (ties keep an order; no claim depends on
tie order). -/
def sortByCreatedDesc : List JVal → List JVal
  | [] => []
  | x :: xs => insertByCreatedDesc x (sortByCreatedDesc xs)

/-- `_fetch_hpf_script` (lines 413-460): 200 JSON list, filtered to
active, non-deleted, https scripts; prefer the default, else the most
recently created.  (A non-dict list entry would raise in the source and
yield `None`; entries here are dicts.) -/
def fetch_hpf_script (o : SessionOracle) : Option JVal :=
  match o.fetchScripts with
  | .exc _ => none
  | .resp r =>
    if r.status ≠ 200 then none
    else
      match r.body with
      | some (.arr scripts) =>
        if scripts.isEmpty then none
        else
          let active := scripts.filter fun s =>
            match s with
            | .obj f =>
              (match jget f "status" with
               | some (.s v) => v == "ACTIVE"
               | _ => false)
              && !truthyO (jget f "deleted")
              && (match jget f "netvalveScriptSrc" with
                  | some (.s src) => startsWithStr src "https://"
                  | _ => false)
            | _ => false
          match active.find? (fun s =>
            match s with
            | .obj f => truthyO (jget f "isDefault")
            | _ => false) with
          | some s => some s
          | none =>
            match sortByCreatedDesc active with
            | s :: _ => some s
            | [] => none
      | _ => none

/-- `_build_hpp_order_endpoint_candidates` (lines 466-494). -/
def build_hpp_order_endpoint_candidates (env : String → String) :
    List (String × String) :=
  let hosts := ([envOf env "NETVALVE_HPP_ORDER_HOST",
    resolve_hpp_base_url env]).filter (· ≠ "")
  let paths := (([envOf env "NETVALVE_HPP_ORDER_PATH", "/hpp/order", "/order"]).filter
    (· ≠ "")).map fun p => if startsWithStr p "/" then p else "/" ++ p
  ((hosts.flatMap fun h => paths.map fun p => rstripSlash h ++ p).foldl
    (fun acc url => if acc.contains url then acc else acc ++ [url]) []).map
    fun url => ("POST", url)

/-- `_normalize_hpp_redirect` (lines 496-518): the first non-blank
string under a known redirect key, at the root or one level down. -/
def normalize_hpp_redirect (data : JVal) : Option String :=
  match data with
  | .obj root =>
    let nested := (["data", "payload", "order"]).filterMap fun k =>
      match jget root k with
      | some (.obj f) => some (JVal.obj f)
      | _ => none
    (JVal.obj root :: nested).findSome? fun src =>
      (["redirectUrl", "redirect_url", "url", "paymentUrl", "payment_url"]).findSome?
        fun k =>
          match src with
          | .obj f =>
            match jget f k with
            | some (.s v) => if trimStr v ≠ "" then some (trimStr v) else none
            | _ => none
          | _ => none
  | _ => none

structure HppAttempt where
  method : String
  url : String
  status : Nat
  body : String

structure HppResult where
  success : Bool
  attempts : List HppAttempt
  reason : Option String := none
  data : Option JVal := none
  endpoint : Option (String × String) := none

/-- `{**parsed, "redirectUrl": redirect_url}`. -/
def withRedirect (parsed : JVal) (url : String) : JVal :=
  match parsed with
  | .obj f => .obj (f ++ [("redirectUrl", .s url)])
  | v => v

/-- The candidate loop of `_try_hpp_fallback` (lines 606-651). -/
def hppLoop (o : SessionOracle) (attempts : List HppAttempt) :
    List (String × String) → HppResult
  | [] => { success := false, attempts := attempts,
            reason := some "hpp_fallback_no_redirect" }
  | c :: rest =>
    match o.hpp c.2 with
    | .exc msg => hppLoop o (attempts ++ [⟨c.1, c.2, 0, msg⟩]) rest
    | .resp r =>
      let attempts := attempts ++ [⟨c.1, c.2, r.status, takeStr r.text 500⟩]
      if r.status ≥ 400 || !r.jsonContentType then hppLoop o attempts rest
      else
        match r.body with
        | none => hppLoop o attempts rest
        | some parsed =>
          match normalize_hpp_redirect parsed with
          | some url =>
            { success := true, endpoint := some (c.1, c.2), attempts := attempts,
              data := some (withRedirect parsed url) }
          | none => hppLoop o attempts rest

/-- The checkout summary `create_hpf_session` hands to the fallback. -/
structure Checkout where
  amount : Option Rat
  currency_code : Option String
  cart_id : Option String

/-- Request body of the HPF session endpoint
(`HpfSessionRequest.model_dump()`, schema-typed fields). -/
structure HpfSessionBody where
  version : Option String := none
  currency_code : Option String := none
  amount : Option Rat := none
  cart_id : Option String := none
  order_desc : Option String := none
  success_url : Option String := none
  cancel_url : Option String := none
  failed_url : Option String := none
  pending_url : Option String := none

/-- `_try_hpp_fallback` (lines 520-652): disabled flag, direct-URL
override, bearer/amount/site-mid preconditions, then the candidate
loop. -/
def try_hpp_fallback (env : String → String) (o : SessionOracle)
    (bearer_token : Option String) (body : HpfSessionBody)
    (checkout : Checkout) (nowSec : Nat) : HppResult :=
  if lowerStr (envOf env "NETVALVE_HPP_FALLBACK_ENABLED") == "false" then
    { success := false, attempts := [], reason := some "hpp_fallback_disabled" }
  else if envOf env "NETVALVE_HPP_DIRECT_URL" ≠ "" then
    { success := true, attempts := [],
      data := some (.obj [("redirectUrl", .s (envOf env "NETVALVE_HPP_DIRECT_URL"))]),
      endpoint := some ("CONFIGURED", envOf env "NETVALVE_HPP_DIRECT_URL") }
  else
    match bearer_token with
    | none =>
      { success := false, attempts := [], reason := some "hpp_fallback_no_bearer_token" }
    | some bearer =>
      match checkout.amount with
      | none =>
        { success := false, attempts := [], reason := some "hpp_fallback_missing_amount" }
      | some amt =>
        if amt ≤ 0 then
          { success := false, attempts := [],
            reason := some "hpp_fallback_missing_amount" }
        else
          let currency := upperStr (pyOrStr (checkout.currency_code.getD "") "USD")
          let mid_id := resolve_netvalve_mid_id env (some currency)
          let site_id := envOf env "NETVALVE_SITE_ID"
          if mid_id == "" || site_id == "" then
            { success := false, attempts := [],
              reason := some "hpp_fallback_missing_site_or_mid" }
          else
            let return_base := pick_first_store_url env
            let payload : JVal := .obj
              [("mode", .s (pyOrStr (envOf env "NETVALVE_HPP_MODE") "SALE")),
               ("amount", .num amt),
               ("currency", .s currency),
               ("siteId", .s site_id),
               ("netvalveMidId", .s mid_id),
               ("clientOrderId", .s (pyOrStr (checkout.cart_id.getD "")
                  ("cart_" ++ toString nowSec))),
               ("orderDesc", .s (pyOrStr (body.order_desc.getD "") "Medusa checkout")),
               ("successUrl", .s (pyOrStr (body.success_url.getD "")
                  (pyOrStr (envOf env "NETVALVE_HPP_SUCCESS_URL")
                    (return_base ++ "/checkout-v2/payment?netvalve_status=success")))),
               ("cancelUrl", .s (pyOrStr (body.cancel_url.getD "")
                  (pyOrStr (envOf env "NETVALVE_HPP_CANCEL_URL")
                    (return_base ++ "/checkout-v2/payment?netvalve_status=cancel")))),
               ("failedUrl", .s (pyOrStr (body.failed_url.getD "")
                  (pyOrStr (envOf env "NETVALVE_HPP_FAILED_URL")
                    (return_base ++ "/checkout-v2/payment?netvalve_status=failed")))),
               ("pendingUrl", .s (pyOrStr (body.pending_url.getD "")
                  (pyOrStr (envOf env "NETVALVE_HPP_PENDING_URL")
                    (return_base ++ "/checkout-v2/payment?netvalve_status=pending"))))]
          let _ := payload
          hppLoop o [] (build_hpp_order_endpoint_candidates env)

/-- One line of `_build_diagnostic`; `"\n".join(lines)`. -/
def joinLines : List String → String
  | [] => ""
  | [l] => l
  | l :: rest => l ++ "\n" ++ joinLines rest

/-- `_build_diagnostic` (lines 658-705). -/
def build_diagnostic (token_obtained hpf_script_found : Bool)
    (hpp_result : HppResult) : String :=
  let lines := ["NetValve payment session could not be initialized.", ""]
  let lines := lines ++
    (if !token_obtained then
      ["AUTH: Backoffice sign-in failed — check NETVALVE_BASIC_AUTH_USERNAME and NETVALVE_BASIC_AUTH_PASSWORD in .env."]
    else if !hpf_script_found then
      ["HPF: No active HPF script found in the backoffice. Ensure HPF scripts are configured in the NetValve admin panel."]
    else [])
  let hpp_401 := hpp_result.attempts.any (·.status == 401)
  let lines := lines ++
    (if hpp_result.reason == some "hpp_fallback_no_bearer_token" then
      ["HPP: No Bearer token available for HPP API."]
    else if hpp_401 then
      ["HPP: Bearer token rejected by HPP API (401). The HPP API may use a different token than the backoffice."]
    else
      match hpp_result.reason with
      | some reason => ["HPP: " ++ reason]
      | none => [])
  let lines := lines ++
    ["", "QUICK FIX — set one of these in .env:",
     "  • NETVALVE_HPF_SCRIPT_SRC=<url>  — HPF script URL",
     "  • NETVALVE_HPP_DIRECT_URL=<url>  — pre-built HPP redirect URL"]
  joinLines lines

/-- jwtToken recovery from the script URL query string (lines 769-777);
models `urlparse`/`parse_qs` without percent-decoding. -/
def extractQueryParam (url key : String) : Option String :=
  match url.data.dropWhile (· ≠ '?') with
  | [] => none
  | _ :: q =>
    (splitCharList (q.takeWhile (· ≠ '#')) '&').findSome? fun pr =>
      let ks := pr.takeWhile (· ≠ '=')
      let vs := (pr.dropWhile (· ≠ '=')).drop 1
      if String.mk ks == key && !vs.isEmpty then some (String.mk vs) else none

/-- Lookup inside a JSON object value. -/
def jgetObj (v : JVal) (k : String) : Option JVal :=
  match v with
  | .obj f => jget f k
  | _ => none

/-- `bool(x)` of an optional Python value. -/
def optTruthy (v : Option String) : Bool :=
  match v with
  | some t => t != ""
  | none => false

/-- `(body.get("currency_code") or "").upper() or None`. -/
def currencyCodeOf (body : HpfSessionBody) : Option String :=
  let cc := upperStr (body.currency_code.getD "")
  if cc ≠ "" then some cc else none

/-- The `common_payload` of every waterfall response (lines 722-729). -/
def commonPayload (env : String → String) (body : HpfSessionBody) : JDict :=
  [("provider", .s "netvalve"),
   ("environment", .s (pyOrStr (envOf env "NETVALVE_ENVIRONMENT") "production")),
   ("currency_code", optStr (currencyCodeOf body)),
   ("site_id", .s (envOf env "NETVALVE_SITE_ID")),
   ("client_id", .s (envOf env "NETVALVE_CLIENT_ID")),
   ("netvalve_mid_id", .s (resolve_netvalve_mid_id env (currencyCodeOf body)))]

def checkoutOf (body : HpfSessionBody) : Checkout :=
  { amount := body.amount, currency_code := currencyCodeOf body,
    cart_id := body.cart_id }

/-- Steps 2-5 of the waterfall (lines 796-892): backoffice token plus
script fetch, the HPP fallback, the static fallback script with a
diagnostic, the diagnostic 502. -/
def sessionStep2AndOn (env : String → String) (st : SessionState)
    (o : SessionOracle) (body : HpfSessionBody) : Nat × JVal :=
  let bearer_token := get_backoffice_token env st o
  let hpf_script : Option JVal :=
    match bearer_token with
    | some _ => fetch_hpf_script o
    | none => none
  match hpf_script with
  | some (.obj scr) =>
    (200, .obj (commonPayload env body ++
      [("flow", .s "hpf"),
       ("hpf", .obj
         [("script_src", jgetN scr "netvalveScriptSrc"),
          ("integrity", jgetN scr "integrity"),
          ("version", jgetN scr "clientVersion"),
          ("script_id", jgetN scr "id")]),
       ("payment_session_patch", .obj [("hpf_initialized", .b true)])]))
  | _ =>
    let hpp_result := try_hpp_fallback env o bearer_token body (checkoutOf body)
      st.nowSec
    if hpp_result.success && truthyO hpp_result.data then
      let d := (hpp_result.data.getD .null)
      let redirect := jgetN (match d with | .obj f => f | _ => []) "redirectUrl"
      (200, .obj (commonPayload env body ++
        [("flow", .s "hpp"),
         ("hpp", .obj
           [("redirect_url", redirect),
            ("order_id", jgetN (match d with | .obj f => f | _ => []) "orderId"),
            ("transaction_id",
             jgetN (match d with | .obj f => f | _ => []) "transactionID")]),
         ("netvalve_endpoint",
          match hpp_result.endpoint with
          | some (m, u) => .obj [("method", .s m), ("url", .s u)]
          | none => .null),
         ("payment_session_patch", .obj
           [("requires_redirect", .b true),
            ("redirect_url", redirect),
            ("hpp_order_id", jgetN (match d with | .obj f => f | _ => []) "orderId"),
            ("hpp_transaction_id",
             jgetN (match d with | .obj f => f | _ => []) "transactionID")])]))
    else if resolve_fallback_hpf_script_src env ≠ "" then
      let diagnostic := build_diagnostic (optTruthy bearer_token)
        (truthyO hpf_script) hpp_result
      (200, .obj (commonPayload env body ++
        [("flow", .s "hpf"),
         ("hpf", .obj
           [("script_src", .s (resolve_fallback_hpf_script_src env)),
            ("integrity",
             let i := envOf env "NETVALVE_HPF_SCRIPT_INTEGRITY"
             if i ≠ "" then .s i else .null),
            ("source", .s "fallback")]),
         ("payment_session_patch", .obj
           [("hpf_initialized", .b true), ("hpf_fallback_script", .b true)]),
         ("diagnostic", .s diagnostic)]))
    else
      let diagnostic := build_diagnostic (optTruthy bearer_token)
        (truthyO hpf_script) hpp_result
      (502, .obj
        [("message", .s "NetValve payment session could not be initialized"),
         ("diagnostic", .s diagnostic),
         ("debug", .obj
           [("backoffice_token_obtained", .b (optTruthy bearer_token)),
            ("hpf_script_found", .b (truthyO hpf_script)),
            ("hpp_fallback", .obj
              [("success", .b false),
               ("reason", optStr hpp_result.reason),
               ("attempts", .arr (hpp_result.attempts.map fun a =>
                 .obj [("method", .s a.method), ("url", .s a.url),
                       ("status", .num a.status), ("body", .s a.body)]))])])])

/-- `NetValveService.create_hpf_session` (lines 711-898): the 5-step
waterfall, short-circuiting at the first success.  Step 0: direct HPP
redirect override; step 0.5: static HPF script override; step 1: the
primary initializeSession API; then `sessionStep2AndOn`. -/
def create_hpf_session (env : String → String) (st : SessionState)
    (o : SessionOracle) (body : HpfSessionBody) : Nat × JVal :=
  if envOf env "NETVALVE_HPP_DIRECT_URL" ≠ "" then
    (200, .obj (commonPayload env body ++
      [("flow", .s "hpp"),
       ("hpp", .obj [("redirect_url", .s (envOf env "NETVALVE_HPP_DIRECT_URL"))]),
       ("payment_session_patch", .obj
         [("requires_redirect", .b true),
          ("redirect_url", .s (envOf env "NETVALVE_HPP_DIRECT_URL"))])]))
  else if envOf env "NETVALVE_HPF_SCRIPT_SRC" ≠ "" then
    (200, .obj (commonPayload env body ++
      [("flow", .s "hpf"),
       ("hpf", .obj
         [("script_src", .s (envOf env "NETVALVE_HPF_SCRIPT_SRC")),
          ("integrity",
           let i := envOf env "NETVALVE_HPF_SCRIPT_INTEGRITY"
           if i ≠ "" then .s i else .null)]),
       ("payment_session_patch", .obj [("hpf_initialized", .b true)])]))
  else
    match initialize_hpf_session env o with
    | some (.obj hpf) =>
      if truthyO (jget hpf "netvalveScriptSrc") then
        let jwt0 := jget hpf "jwtToken"
        let jwtJ : JVal :=
          if truthyO jwt0 then jwt0.getD .null
          else
            match jget hpf "netvalveScriptSrc" with
            | some (.s u) =>
              (match extractQueryParam u "jwtToken" with
               | some v => .s v
               | none => .null)
            | _ => jwt0.getD .null
        (200, .obj (commonPayload env body ++
          [("flow", .s "hpf"),
           ("hpf", .obj
             [("script_src", jgetN hpf "netvalveScriptSrc"),
              ("integrity", jgetN hpf "integrity"),
              ("version", jgetN hpf "version"),
              ("payment_token", jgetN hpf "paymentToken"),
              ("jwt_token", jwtJ),
              ("trace_id", jgetN hpf "traceID")]),
           ("payment_session_patch", .obj
             [("hpf_initialized", .b true),
              ("hpf_payment_token", jgetN hpf "paymentToken")])]))
      else sessionStep2AndOn env st o body
    | _ => sessionStep2AndOn env st o body

/-- C6.  Session waterfall ordering.  (a) When the direct HPP redirect
override is configured, `create_hpf_session` returns 200 with flow
"hpp" redirecting to that URL and without any "hpf" key — for every
service state, every network oracle and every request body (so the
static-script override, even if also configured, and every network
step are short-circuited).  (b) When neither override is configured,
the primary initializeSession step fails, and no backoffice token is
obtainable, but a fallback script is configured, it returns 200 with
flow "hpf", the hpf block flagged source="fallback", and a non-empty
diagnostic string. -/
theorem C6_session_waterfall :
    (∀ (env : String → String) (st : SessionState) (o : SessionOracle)
        (body : HpfSessionBody),
      envOf env "NETVALVE_HPP_DIRECT_URL" ≠ "" →
      (create_hpf_session env st o body).1 = 200 ∧
      jgetObj (create_hpf_session env st o body).2 "flow" = some (.s "hpp") ∧
      jgetObj ((jgetObj (create_hpf_session env st o body).2 "hpp").getD .null)
        "redirect_url" = some (.s (envOf env "NETVALVE_HPP_DIRECT_URL")) ∧
      jgetObj (create_hpf_session env st o body).2 "hpf" = none) ∧
    (∀ (env : String → String) (st : SessionState) (o : SessionOracle)
        (body : HpfSessionBody),
      envOf env "NETVALVE_HPP_DIRECT_URL" = "" →
      envOf env "NETVALVE_HPF_SCRIPT_SRC" = "" →
      initialize_hpf_session env o = none →
      get_backoffice_token env st o = none →
      resolve_fallback_hpf_script_src env ≠ "" →
      (create_hpf_session env st o body).1 = 200 ∧
      jgetObj (create_hpf_session env st o body).2 "flow" = some (.s "hpf") ∧
      jgetObj ((jgetObj (create_hpf_session env st o body).2 "hpf").getD .null)
        "source" = some (.s "fallback") ∧
      ∃ d, jgetObj (create_hpf_session env st o body).2 "diagnostic"
          = some (.s d) ∧ d ≠ "") := by
  constructor
  · intro env st o body h1
    have hb : create_hpf_session env st o body
        = (200, .obj (commonPayload env body ++
          [("flow", .s "hpp"),
           ("hpp", .obj
             [("redirect_url", .s (envOf env "NETVALVE_HPP_DIRECT_URL"))]),
           ("payment_session_patch", .obj
             [("requires_redirect", .b true),
              ("redirect_url", .s (envOf env "NETVALVE_HPP_DIRECT_URL"))])])) := by
      simp only [create_hpf_session]
      rw [if_pos h1]
    rw [hb]
    refine ⟨rfl, ?_, ?_, ?_⟩
    · show jget (commonPayload env body ++ _) "flow" = _
      rw [jget_append]
      rfl
    · show jgetObj ((jget (commonPayload env body ++ _) "hpp").getD .null)
        "redirect_url" = _
      rw [jget_append]
      rfl
    · show jget (commonPayload env body ++ _) "hpf" = none
      rw [jget_append]
      rfl
  · intro env st o body h1 h2 hinit htok hfb
    have hb : create_hpf_session env st o body
        = sessionStep2AndOn env st o body := by
      simp only [create_hpf_session, h1, h2, hinit, ne_eq, not_true_eq_false,
        if_false]
    have hhpp : ∃ reason, (try_hpp_fallback env o none body (checkoutOf body)
        st.nowSec
        = { success := false, attempts := [], reason := some reason,
            data := none, endpoint := none }) ∧
        build_diagnostic false false
          { success := false, attempts := [], reason := some reason,
            data := none, endpoint := none } ≠ "" := by
      by_cases henb :
          (lowerStr (envOf env "NETVALVE_HPP_FALLBACK_ENABLED") == "false") = true
      · exact ⟨"hpp_fallback_disabled", by simp [try_hpp_fallback, henb],
          by decide⟩
      · have henb' :
            (lowerStr (envOf env "NETVALVE_HPP_FALLBACK_ENABLED") == "false")
              = false := by
          simpa using henb
        exact ⟨"hpp_fallback_no_bearer_token",
          by simp [try_hpp_fallback, henb', h1], by decide⟩
    obtain ⟨reason, hr, hdne⟩ := hhpp
    have hres : create_hpf_session env st o body
        = (200, .obj (commonPayload env body ++
            [("flow", .s "hpf"),
             ("hpf", .obj
               [("script_src", .s (resolve_fallback_hpf_script_src env)),
                ("integrity",
                 let i := envOf env "NETVALVE_HPF_SCRIPT_INTEGRITY"
                 if i ≠ "" then JVal.s i else JVal.null),
                ("source", .s "fallback")]),
             ("payment_session_patch", .obj
               [("hpf_initialized", .b true),
                ("hpf_fallback_script", .b true)]),
             ("diagnostic", .s (build_diagnostic false false
               { success := false, attempts := [], reason := some reason,
                 data := none, endpoint := none }))])) := by
      rw [hb]
      simp [sessionStep2AndOn, htok, hr, hfb]
      rfl
    rw [hres]
    refine ⟨rfl, ?_, ?_,
      ⟨build_diagnostic false false
        { success := false, attempts := [], reason := some reason,
          data := none, endpoint := none }, ?_, hdne⟩⟩
    · show jget (commonPayload env body ++ _) "flow" = _
      rw [jget_append]
      rfl
    · show jgetObj ((jget (commonPayload env body ++ _) "hpf").getD .null)
        "source" = _
      rw [jget_append]
      rfl
    · show jget (commonPayload env body ++ _) "diagnostic" = _
      rw [jget_append]
      rfl

def envA : String → String := fun k =>
  if k == "NETVALVE_HPP_DIRECT_URL" then "https://pay.example.com/redirect"
  else if k == "NETVALVE_HPF_SCRIPT_SRC" then "https://cdn.example.com/hpf.js"
  else ""

def envB : String → String := fun k =>
  if k == "NETVALVE_HPF_SCRIPT_FALLBACK_SRC" then
    "https://cdn.example.com/fallback.js"
  else ""

def st0 : SessionState := { cachedToken := none, nowMs := 0, nowSec := 0 }

def oracleDown : SessionOracle :=
  { initSession := .exc "connection refused", signIn := .exc "connection refused",
    fetchScripts := .exc "connection refused",
    hpp := fun _ => .exc "connection refused" }

/-- Witness for C6 at concrete environments and a dead network. -/
theorem C6_witness :
    ((create_hpf_session envA st0 oracleDown {}).1 = 200 ∧
      jgetObj (create_hpf_session envA st0 oracleDown {}).2 "flow"
        = some (.s "hpp")) ∧
    ((create_hpf_session envB st0 oracleDown {}).1 = 200 ∧
      jgetObj ((jgetObj (create_hpf_session envB st0 oracleDown {}).2 "hpf").getD
        .null) "source" = some (.s "fallback")) :=
  ⟨⟨(C6_session_waterfall.1 envA st0 oracleDown {} (by decide)).1,
    (C6_session_waterfall.1 envA st0 oracleDown {} (by decide)).2.1⟩,
   ⟨(C6_session_waterfall.2 envB st0 oracleDown {} rfl rfl rfl rfl
      (by decide)).1,
    (C6_session_waterfall.2 envB st0 oracleDown {} rfl rfl rfl rfl
      (by decide)).2.2.1⟩⟩

end MedusaWebhook
